import Mathlib

/-!
# SiteClassView (src/htdocs/js/SiteClassView.js)

A shallow embedding of the `SiteClassView` widget: a select box of site
classes kept in step with the `vs30` attribute of the selected analysis.

The view's closure variables (`_this.model`, `_siteClassCollection`,
`_dependencyFactory`, the two ownership flags) form the `View` record.  Every
method of the view is a function from a `View` to an `Outcome`: the view
afterwards, the calls made on the collaborating objects in program order, and
whether a JavaScript `TypeError` ended the method early.  A thrown error keeps
the mutations made before it, as in JavaScript.

The collaborators `mvc/Collection`, `mvc/Model`, `mvc/CollectionSelectBox`,
`mvc/SelectedCollectionView` and `DependencyFactory` are `require`d by the file
but are not among the sources.  The first part embeds the method bodies with
the collaborators as plain state: a call on the collection changes the
collection and nothing else.  The second part (`Wired`) runs the same bodies
with the listeners that lines 65-67 and 139 register: a change of the
selection calls `_updateSiteClass`, a change of `vs30` calls `render`.
-/

namespace SiteClassView

/-! ## Data model -/

/-- A site class record: its id and the label shown in the select box
(`model.get('display')`). -/
structure SiteClass where
  id : Nat
  display : String
  deriving DecidableEq, Repr

/-- A JavaScript value as held by the `vs30` attribute of an analysis:
`undefined`, `null`, a site class model, or any other value (a boolean, number,
string or other object), of which only the result of reading `.id` matters
(`none` when that is `undefined`, as for every primitive). -/
inductive Vs30 where
  | undefined
  | null
  | siteClass (s : SiteClass)
  | other (id : Option Nat)
  deriving DecidableEq, Repr

/-- An edition model; only `edition.get('id')` is read. -/
structure Edition where
  id : Nat
  deriving DecidableEq, Repr

/-- A location object; `latitude` and `longitude` are handed to the factory
unchanged (no arithmetic is done on them). -/
structure Location where
  latitude : Int
  longitude : Int
  deriving DecidableEq, Repr

/-- The attributes of an analysis model that the view reads or writes.  A
falsy `edition` or `location` is `none`.  `vs30` is `none` for a model that has
no such attribute (it was never set), otherwise the stored value. -/
structure Analysis where
  edition : Option Edition
  location : Option Location
  vs30 : Option Vs30
  deriving DecidableEq, Repr

/-- The result of `model.get('vs30')`.  `mvc/Model` is not among the sources;
its `get(key)` returns the stored value of an attribute the model has, and
`null` for an attribute that was never set. -/
def Analysis.getVs30 (a : Analysis) : Vs30 :=
  match a.vs30 with
  | some x => x
  | none => Vs30.null

/-- A reference to an analysis model object. -/
abbrev Ref := Nat

/-- Attribute names that can be own properties of the `changes` object handed
to `render`. -/
inductive Attr where
  | edition
  | location
  | vs30
  | other
  deriving DecidableEq, Repr

/-- The argument of `render`: absent (`undefined`), `null`, or a value with the
given own property names (the object of changed attributes that a model hands
to its `change` listeners; a primitive has none of the names). -/
inductive Changes where
  | undefined
  | null
  | object (keys : List Attr)
  deriving DecidableEq, Repr

/-- Events of a collection. -/
inductive Event where
  | select
  | deselect
  | reset
  | other
  deriving DecidableEq, Repr

/-- Listener callbacks: this view's `_updateSiteClass` closure, or a callback
registered by somebody else. -/
inductive Callback where
  | updateSiteClass
  | foreign (n : Nat)
  deriving DecidableEq, Repr

/-- A registered listener. -/
structure Listener where
  event : Event
  callback : Callback
  deriving DecidableEq, Repr

/-! ## Collaborators -/

/-- Modelled from the spec: `mvc/Collection` is not among the sources.  The
spec describes it as an "observable ordered set with single-selection
tracking", with "at most one selected item per Collection", "mutated via
`reset`/`select`/`deselect`".  The data is a list, the selection an optional
item, the observers a list of listeners.  The spec does not say whether `reset`
keeps a selection whose id is still present in the new data; `reselectOnReset`
covers both behaviours.  Ids are meant to be distinct within the data: what the
library does with two items of one id is not modelled. -/
structure Collection where
  data : List SiteClass
  selected : Option SiteClass
  listeners : List Listener
  reselectOnReset : Bool
  deriving DecidableEq, Repr

namespace Collection

/-- Modelled from the spec: `Collection()`, a new collection without data,
selection or listeners. -/
def empty (reselect : Bool) : Collection :=
  { data := [], selected := none, listeners := [], reselectOnReset := reselect }

/-- Modelled from the spec: `get(id)`, the first item of the data with that
id, if any. -/
def get (c : Collection) (id : Nat) : Option SiteClass :=
  c.data.find? (fun s => s.id == id)

/-- Modelled from the spec: `getSelected()`. -/
def getSelected (c : Collection) : Option SiteClass :=
  c.selected

/-- Modelled from the spec: `deselect()` leaves nothing selected. -/
def deselect (c : Collection) : Collection :=
  { c with selected := none }

/-- Modelled from the spec: `selectById(id)` selects the item of the data with
that id; when there is none (as for an id of `undefined`, here `none`), nothing
is selected. -/
def selectById (c : Collection) (id : Option Nat) : Collection :=
  { c with selected := id.bind c.get }

/-- Modelled from the spec: `reset(data)` replaces the data.  The previous
selection is dropped, or (with `reselectOnReset`) replaced by the item of the
new data with the same id when there is one. -/
def reset (c : Collection) (data : List SiteClass) : Collection :=
  { c with
    data := data
    selected :=
      if c.reselectOnReset then
        c.selected.bind (fun s => data.find? (fun t => t.id == s.id))
      else none }

/-- Modelled from the spec: `on(event, callback)` registers a listener (`on` is
a reserved word here, hence the longer name). -/
def onEvent (c : Collection) (e : Event) (cb : Callback) : Collection :=
  { c with listeners := c.listeners ++ [{ event := e, callback := cb }] }

/-- Modelled from the spec: `off(event, callback)` unregisters the listeners
for that event and callback. -/
def offEvent (c : Collection) (e : Event) (cb : Callback) : Collection :=
  { c with listeners := c.listeners.filter (fun l => !(l.event == e && l.callback == cb)) }

end Collection

/-- The dependency factory; `DependencyFactory` is not among the sources, so
its two queries are taken as parameters. -/
structure DependencyFactory where
  getAllSiteClasses : List SiteClass
  getFilteredSiteClasses : Nat → Int → Int → List SiteClass

/-- The calls the view makes on its collaborators. -/
inductive Call where
  | getAllSiteClasses
  | getFilteredSiteClasses (editionId : Nat) (latitude longitude : Int)
  | reset (data : List SiteClass)
  | deselect
  | selectById (id : Option Nat)
  | modelSetVs30 (model : Ref) (value : Option SiteClass)
  | modelOnChange (model : Ref)
  | modelOffChange (model : Ref)
  | createCollection
  | createSelectBox (collection : Collection)
  | collectionOn (e : Event) (cb : Callback)
  | collectionOff (e : Event) (cb : Callback)
  | factoryGetInstance
  | factoryWhenReady
  | collectionDestroy
  | factoryDestroy
  | selectBoxDestroy
  | parentDestroy
  | onCollectionDeselect
  deriving DecidableEq, Repr

/-! ## The view -/

/-- The state of a live view.  `analyses` gives the attributes of every
analysis model object, `selectedAnalysis` is what `_this.collection.getSelected()`
returns, `model` is `_this.model`. -/
structure View where
  analyses : Ref → Analysis
  selectedAnalysis : Option Ref
  model : Option Ref
  siteClassCollection : Collection
  dependencyFactory : DependencyFactory
  destroySiteClassCollection : Bool
  destroyDependencyFactory : Bool

/-- What a method call leaves behind. -/
structure Outcome where
  view : View
  calls : List Call
  threw : Bool

/-- Sequencing of two statements: the second runs only if the first did not
throw. -/
def Outcome.andThen (o : Outcome) (f : View → Outcome) : Outcome :=
  if o.threw then o
  else
    let o2 := f o.view
    { view := o2.view, calls := o.calls ++ o2.calls, threw := o2.threw }

/-- The value written by `model.set({'vs30': _siteClassCollection.getSelected()})`:
`getSelected()` is `null` when nothing is selected. -/
def Vs30.ofSelected : Option SiteClass → Vs30
  | none => Vs30.null
  | some s => Vs30.siteClass s

/-- The result of reading `siteClass.id` on a value that is neither `undefined`
nor `null` (`none` when the result is `undefined`). -/
def Vs30.id : Vs30 → Option Nat
  | Vs30.siteClass s => some s.id
  | Vs30.other id => id
  | _ => none

/-- `_updateSiteClass` (lines 89-95). -/
def _updateSiteClass (v : View) : Outcome :=
  match v.model with
  | some r =>
    let sel := v.siteClassCollection.getSelected
    { view := { v with
        analyses := Function.update v.analyses r
          { v.analyses r with vs30 := some (Vs30.ofSelected sel) } }
      calls := [Call.modelSetVs30 r sel]
      threw := false }
  | none => { view := v, calls := [], threw := false }

/-- `_updateSiteClassCollectionSelectBox` (lines 101-121). -/
def _updateSiteClassCollectionSelectBox (v : View) : Outcome :=
  let all := v.dependencyFactory.getAllSiteClasses
  let picked : List SiteClass × List Call :=
    match v.model with
    | some r =>
      match (v.analyses r).edition, (v.analyses r).location with
      | some edition, some location =>
        (v.dependencyFactory.getFilteredSiteClasses edition.id
            location.latitude location.longitude,
          [Call.getFilteredSiteClasses edition.id location.latitude location.longitude])
      | _, _ => (all, [])
    | none => (all, [])
  { view := { v with siteClassCollection := v.siteClassCollection.reset picked.1 }
    calls := [Call.getAllSiteClasses] ++ picked.2 ++ [Call.reset picked.1]
    threw := false }

/-- The `else` branch of `render` (lines 184-196).  `siteClass === null` is the
only test: for `undefined`, reading `siteClass.id` throws; for every other
value the result of the read is handed to `selectById`. -/
def renderSelection (v : View) : Outcome :=
  match v.model with
  | some r =>
    match (v.analyses r).getVs30 with
    | Vs30.null =>
      { view := { v with siteClassCollection := v.siteClassCollection.deselect }
        calls := [Call.deselect], threw := false }
    | Vs30.undefined => { view := v, calls := [], threw := true }
    | value =>
      { view := { v with
          siteClassCollection := v.siteClassCollection.selectById value.id }
        calls := [Call.selectById value.id], threw := false }
  | none =>
    { view := { v with siteClassCollection := v.siteClassCollection.deselect }
      calls := [Call.deselect], threw := false }

/-- `_this.render` (lines 175-197).  For `render(null)` the test
`typeof changes !== 'undefined'` holds and `changes.hasOwnProperty` throws. -/
def render (changes : Changes) (v : View) : Outcome :=
  match changes with
  | Changes.undefined => renderSelection v
  | Changes.null => { view := v, calls := [], threw := true }
  | Changes.object keys =>
    if keys.contains Attr.location || keys.contains Attr.edition then
      _updateSiteClassCollectionSelectBox v
    else renderSelection v

/-- `_this.onCollectionDeselect` (lines 126-131).  `_this.model.off` throws
when no model is bound. -/
def onCollectionDeselect (v : View) : Outcome :=
  match v.model with
  | none => { view := v, calls := [], threw := true }
  | some r =>
    let o : Outcome :=
      { view := { v with model := none }, calls := [Call.modelOffChange r], threw := false }
    (o.andThen _updateSiteClassCollectionSelectBox).andThen (render Changes.undefined)

/-- `_this.onCollectionSelect` (lines 136-141).  `_this.model.on` throws when
the analysis collection has no selection. -/
def onCollectionSelect (v : View) : Outcome :=
  let o : Outcome :=
    { view := { v with model := v.selectedAnalysis }, calls := [], threw := false }
  (o.andThen _updateSiteClassCollectionSelectBox).andThen (fun w =>
    match w.model with
    | none => { view := w, calls := [], threw := true }
    | some r =>
      let o2 : Outcome := { view := w, calls := [Call.modelOnChange r], threw := false }
      o2.andThen (render Changes.undefined))

/-- The callback handed to `_dependencyFactory.whenReady` (lines 79-82). -/
def whenReadyCallback (v : View) : Outcome :=
  (_updateSiteClassCollectionSelectBox v).andThen (render Changes.undefined)

/-- The constructor's `params`.  `vs30` and `factory` are the two optional
collaborators read by `_initialize`; `editions` is the key named in the usage
comment (lines 16-20), which `_initialize` never reads; `factoryInstance` is
what `DependencyFactory.getInstance()` returns; `analyses`, `selectedAnalysis`
and `model` are what the base view `SelectedCollectionView(params)` has set up;
`reselectOnReset` is the behaviour of a collection made by `Collection()`. -/
structure Params where
  vs30 : Option Collection
  editions : Option Collection
  factory : Option DependencyFactory
  factoryInstance : DependencyFactory
  analyses : Ref → Analysis
  selectedAnalysis : Option Ref
  model : Option Ref
  reselectOnReset : Bool

/-- `_initialize` (lines 44-83), up to the registration of the `whenReady`
callback. -/
def _initialize (params : Params) : Outcome :=
  let sc : Collection × Bool × List Call :=
    match params.vs30 with
    | some c => (c, false, [])
    | none => (Collection.empty params.reselectOnReset, true, [Call.createCollection])
  let df : DependencyFactory × Bool × List Call :=
    match params.factory with
    | some f => (f, false, [])
    | none => (params.factoryInstance, true, [Call.factoryGetInstance])
  { view :=
      { analyses := params.analyses
        selectedAnalysis := params.selectedAnalysis
        model := params.model
        siteClassCollection :=
          (sc.1.onEvent Event.select Callback.updateSiteClass).onEvent
            Event.deselect Callback.updateSiteClass
        dependencyFactory := df.1
        destroySiteClassCollection := sc.2.1
        destroyDependencyFactory := df.2.1 }
    calls := sc.2.2 ++ [Call.createSelectBox sc.1,
        Call.collectionOn Event.select Callback.updateSiteClass,
        Call.collectionOn Event.deselect Callback.updateSiteClass]
      ++ df.2.2 ++ [Call.factoryWhenReady]
    threw := false }

/-- What `destroy` relies on in collaborators that are not among the sources.
Both flags are set in the library the view is written for. -/
structure Teardown where
  /-- `CollectionSelectBox.destroy()` unbinds the select box from its
  collection, which throws once that collection has been destroyed. -/
  selectBoxUnbinds : Bool
  /-- The base view's `destroy` calls `_this.onCollectionDeselect()` when a
  model is bound. -/
  parentDeselects : Bool

/-- What `destroy` leaves behind: the site class collection after the two `off`
calls, whether it was destroyed, whether lines 159-168 ran (they set the
view's closure variables, `_this` among them, to `null`), the calls made, and
whether `destroy` ended in a throw. -/
structure Destroyed where
  siteClassCollection : Collection
  collectionDestroyed : Bool
  cleanedUp : Bool
  calls : List Call
  threw : Bool

/-- `_this.destroy` (lines 146-169): the view's own part, followed by the base
view's `destroy` (`Util.compose`).  An owned collection is destroyed (line 152)
before the select box bound to it (line 157); when the select box unbinds from
its collection that call throws and nothing after it runs.  Otherwise lines
159-168 set `_this` to `null` before the base view's `destroy` runs; when that
calls `onCollectionDeselect`, line 127 reads `_this.model` and throws. -/
def destroy (lib : Teardown) (v : View) : Destroyed :=
  let collection :=
    (v.siteClassCollection.offEvent Event.select Callback.updateSiteClass).offEvent
      Event.deselect Callback.updateSiteClass
  let calls :=
    [Call.collectionOff Event.select Callback.updateSiteClass,
     Call.collectionOff Event.deselect Callback.updateSiteClass]
    ++ (if v.destroySiteClassCollection then [Call.collectionDestroy] else [])
    ++ (if v.destroyDependencyFactory then [Call.factoryDestroy] else [])
    ++ [Call.selectBoxDestroy]
  if lib.selectBoxUnbinds && v.destroySiteClassCollection then
    { siteClassCollection := collection, collectionDestroyed := true, cleanedUp := false,
      calls := calls, threw := true }
  else if lib.parentDeselects && v.model.isSome then
    { siteClassCollection := collection
      collectionDestroyed := v.destroySiteClassCollection, cleanedUp := true
      calls := calls ++ [Call.parentDestroy, Call.onCollectionDeselect], threw := true }
  else
    { siteClassCollection := collection
      collectionDestroyed := v.destroySiteClassCollection, cleanedUp := true
      calls := calls ++ [Call.parentDestroy], threw := false }

/-! ## The view with its listeners

The methods again, now with the dispatch of events.  `mvc/Collection`,
`mvc/Model` and the `Events` they build on are not among the sources; what is
modelled of them: a collection triggers `deselect` when a selection is dropped
by `deselect()` and `select` when `select(obj)` has made `obj` the selection
(after a `deselect` of a different previous selection), it triggers neither
when the selection stays as it is; `reset(data)` triggers `reset`, drops the
selection without a `deselect` event and re-selects by id; `trigger` calls the
listeners of the event in the order of their registration; `model.set` stores
the value and, when it differs from the stored one, triggers `change` with the
changed attributes.  A throwing listener ends the whole call.  Callbacks other
than this view's are taken not to touch the view, its collection or the
analyses.  `fuel` bounds the depth of nested calls. -/

/-- The view and, for every analysis model, how many times line 139 has
registered this view's `render` for the model's `change` event. -/
structure Wired where
  view : View
  renderOnChange : Ref → Nat

/-- What a call leaves behind when listeners are dispatched. -/
structure Run where
  wired : Wired
  calls : List Call
  threw : Bool
  outOfFuel : Bool

/-- A call that ended normally without calling a collaborator. -/
def Run.done (w : Wired) : Run :=
  { wired := w, calls := [], threw := false, outOfFuel := false }

/-- A call that ended in a throw. -/
def Run.throw (w : Wired) : Run :=
  { wired := w, calls := [], threw := true, outOfFuel := false }

/-- A call cut short by the bound on the nesting depth. -/
def Run.exhausted (w : Wired) : Run :=
  { wired := w, calls := [], threw := false, outOfFuel := true }

/-- Sequencing: the rest runs only after a normal end. -/
def Run.andThen (o : Run) (f : Wired → Run) : Run :=
  if o.threw || o.outOfFuel then o
  else
    let o2 := f o.wired
    { wired := o2.wired, calls := o.calls ++ o2.calls, threw := o2.threw,
      outOfFuel := o2.outOfFuel }

/-- The calls `cs` followed by the run `o`. -/
def Run.after (cs : List Call) (o : Run) : Run :=
  { o with calls := cs ++ o.calls }

/-- Calling the same listener `k` times in a row. -/
def Run.times : Nat → (Wired → Run) → Wired → Run
  | 0, _, w => Run.done w
  | k + 1, f, w => (f w).andThen (Run.times k f)

/-- The wired view with another state of its site class collection. -/
def Wired.withCollection (w : Wired) (c : Collection) : Wired :=
  { w with view := { w.view with siteClassCollection := c } }

mutual

/-- The collection's `trigger(event)`: the listeners of the event, in order. -/
def Wired.trigger : Nat → Event → Wired → Run
  | 0, _, w => Run.exhausted w
  | n + 1, e, w =>
    w.view.siteClassCollection.listeners.foldl
      (fun acc l =>
        if l.event == e && l.callback == Callback.updateSiteClass then
          acc.andThen (fun u => Wired._updateSiteClass n u)
        else acc)
      (Run.done w)

/-- The collection's `deselect()`. -/
def Wired.deselect : Nat → Wired → Run
  | 0, w => Run.exhausted w
  | n + 1, w =>
    match w.view.siteClassCollection.selected with
    | none => Run.done w
    | some _ =>
      Wired.trigger n Event.deselect
        (w.withCollection { w.view.siteClassCollection with selected := none })

/-- The collection's `select(obj)`, which throws for an object that is not the
collection's item of that id. -/
def Wired.select : Nat → SiteClass → Wired → Run
  | 0, _, w => Run.exhausted w
  | n + 1, obj, w =>
    if w.view.siteClassCollection.selected = some obj then Run.done w
    else
      (match w.view.siteClassCollection.selected with
        | none => Run.done w
        | some _ => Wired.deselect n w).andThen (fun u =>
          if u.view.siteClassCollection.get obj.id = some obj then
            Wired.trigger n Event.select
              (u.withCollection { u.view.siteClassCollection with selected := some obj })
          else Run.throw u)

/-- The collection's `selectById(id)`. -/
def Wired.selectById : Nat → Option Nat → Wired → Run
  | 0, _, w => Run.exhausted w
  | n + 1, id, w =>
    match id.bind w.view.siteClassCollection.get with
    | some obj => Wired.select n obj w
    | none => Wired.deselect n w

/-- The collection's `reset(data)`. -/
def Wired.reset : Nat → List SiteClass → Wired → Run
  | 0, _, w => Run.exhausted w
  | n + 1, data, w =>
    (Wired.trigger n Event.reset
      (w.withCollection
        { w.view.siteClassCollection with data := data, selected := none })).andThen (fun u =>
      if w.view.siteClassCollection.reselectOnReset then
        match w.view.siteClassCollection.selected.bind
            (fun s => u.view.siteClassCollection.get s.id) with
        | some obj => Wired.select n obj u
        | none => Run.done u
      else Run.done u)

/-- The model's `set({'vs30': value})`. -/
def Wired.modelSet : Nat → Ref → Option SiteClass → Wired → Run
  | 0, _, _, w => Run.exhausted w
  | n + 1, r, value, w =>
    let written : Wired :=
      { w with view := { w.view with
          analyses := Function.update w.view.analyses r
            { w.view.analyses r with vs30 := some (Vs30.ofSelected value) } } }
    if (w.view.analyses r).vs30 = some (Vs30.ofSelected value) then Run.done written
    else
      Run.times (w.renderOnChange r)
        (fun u => Wired.render n (Changes.object [Attr.vs30]) u) written

/-- `_updateSiteClass` (lines 89-95). -/
def Wired._updateSiteClass : Nat → Wired → Run
  | 0, w => Run.exhausted w
  | n + 1, w =>
    match w.view.model with
    | some r =>
      Run.after [Call.modelSetVs30 r w.view.siteClassCollection.getSelected]
        (Wired.modelSet n r w.view.siteClassCollection.getSelected w)
    | none => Run.done w

/-- `_updateSiteClassCollectionSelectBox` (lines 101-121). -/
def Wired._updateSiteClassCollectionSelectBox : Nat → Wired → Run
  | 0, w => Run.exhausted w
  | n + 1, w =>
    let all := w.view.dependencyFactory.getAllSiteClasses
    let picked : List SiteClass × List Call :=
      match w.view.model with
      | some r =>
        match (w.view.analyses r).edition, (w.view.analyses r).location with
        | some edition, some location =>
          (w.view.dependencyFactory.getFilteredSiteClasses edition.id
              location.latitude location.longitude,
            [Call.getFilteredSiteClasses edition.id location.latitude location.longitude])
        | _, _ => (all, [])
      | none => (all, [])
    Run.after ([Call.getAllSiteClasses] ++ picked.2 ++ [Call.reset picked.1])
      (Wired.reset n picked.1 w)

/-- The `else` branch of `render` (lines 184-196). -/
def Wired.renderSelection : Nat → Wired → Run
  | 0, w => Run.exhausted w
  | n + 1, w =>
    match w.view.model with
    | some r =>
      match (w.view.analyses r).getVs30 with
      | Vs30.null => Run.after [Call.deselect] (Wired.deselect n w)
      | Vs30.undefined => Run.throw w
      | value => Run.after [Call.selectById value.id] (Wired.selectById n value.id w)
    | none => Run.after [Call.deselect] (Wired.deselect n w)

/-- `_this.render` (lines 175-197). -/
def Wired.render : Nat → Changes → Wired → Run
  | 0, _, w => Run.exhausted w
  | n + 1, changes, w =>
    match changes with
    | Changes.undefined => Wired.renderSelection n w
    | Changes.null => Run.throw w
    | Changes.object keys =>
      if keys.contains Attr.location || keys.contains Attr.edition then
        Wired._updateSiteClassCollectionSelectBox n w
      else Wired.renderSelection n w

end

/-! ## Operations and predicates used in the statements -/

/-- The operations through which the view touches its site class collection. -/
inductive Op where
  | render (changes : Changes)
  | updateSiteClassCollectionSelectBox
  | onCollectionSelect
  | onCollectionDeselect
  | updateSiteClass
  | whenReady

/-- Running an operation on a view. -/
def Op.run : Op → View → Outcome
  | Op.render changes => SiteClassView.render changes
  | Op.updateSiteClassCollectionSelectBox => SiteClassView._updateSiteClassCollectionSelectBox
  | Op.onCollectionSelect => SiteClassView.onCollectionSelect
  | Op.onCollectionDeselect => SiteClassView.onCollectionDeselect
  | Op.updateSiteClass => SiteClassView._updateSiteClass
  | Op.whenReady => SiteClassView.whenReadyCallback

/-- The view after a sequence of operations, each one a separate call (a throw
ends only the call it happens in). -/
def runOps (ops : List Op) (v : View) : View :=
  ops.foldl (fun w op => (op.run w).view) v

/-- Nothing is selected, or the one selected item is a member of the data. -/
def SelectionOk (c : Collection) : Prop :=
  c.selected = none ∨ ∃ s, c.selected = some s ∧ s ∈ c.data

instance (c : Collection) : Decidable (SelectionOk c) :=
  match h : c.selected with
  | none => isTrue (Or.inl h)
  | some s =>
    if hm : s ∈ c.data then isTrue (Or.inr ⟨s, h, hm⟩)
    else isFalse (by
      rintro (h0 | ⟨t, ht, hmem⟩)
      · rw [h] at h0; cases h0
      · rw [h] at ht; cases ht; exact hm hmem)

/-- The call is `_siteClassCollection.reset(...)`. -/
def Call.isReset : Call → Bool
  | Call.reset _ => true
  | _ => false

/-- The arguments of the `reset` calls among `calls`, in order. -/
def resetArgs (calls : List Call) : List (List SiteClass) :=
  calls.filterMap (fun c => match c with
    | Call.reset data => some data
    | _ => none)

/-- The argument of `render` is absent, or an object with neither a `location`
nor an `edition` property. -/
def NoLocationOrEditionChange (changes : Changes) : Prop :=
  changes = Changes.undefined ∨
    ∃ keys, changes = Changes.object keys ∧ Attr.location ∉ keys ∧ Attr.edition ∉ keys

instance (changes : Changes) : Decidable (NoLocationOrEditionChange changes) :=
  match changes with
  | Changes.undefined => isTrue (Or.inl rfl)
  | Changes.null => isFalse (by
      rintro (h0 | ⟨k, hk, _⟩)
      · cases h0
      · cases hk)
  | Changes.object keys =>
    if h : Attr.location ∉ keys ∧ Attr.edition ∉ keys then
      isTrue (Or.inr ⟨keys, rfl, h⟩)
    else isFalse (by
      rintro (h0 | ⟨k, hk, hh⟩)
      · cases h0
      · cases hk; exact h hh)

/-- The ids of the items are pairwise distinct. -/
def DistinctIds (data : List SiteClass) : Prop :=
  (data.map SiteClass.id).Nodup

instance (data : List SiteClass) : Decidable (DistinctIds data) :=
  inferInstanceAs (Decidable (data.map SiteClass.id).Nodup)

/-- What no operation of a live view changes: the two ownership flags and the
listeners of the site class collection. -/
def SameOwnership (v w : View) : Prop :=
  w.destroySiteClassCollection = v.destroySiteClassCollection ∧
  w.destroyDependencyFactory = v.destroyDependencyFactory ∧
  w.siteClassCollection.listeners = v.siteClassCollection.listeners

/-- The listener is this view's `_updateSiteClass` on `select` or `deselect`. -/
def Listener.isUpdateSiteClass (l : Listener) : Bool :=
  l.callback == Callback.updateSiteClass && (l.event == Event.select || l.event == Event.deselect)

/-- The behaviour of `render` with a bound model as the specification words it:
without a change of location or edition it completes exactly when the model's
`vs30` is `null` or an object, and it throws for a model whose `vs30` was never
set. -/
def RenderBoundAsStated (changes : Changes) (v : View) : Prop :=
  ∀ r, v.model = some r →
    ((render changes v).threw = false ↔
      ((v.analyses r).vs30 = some Vs30.null ∨
        ∃ s, (v.analyses r).vs30 = some (Vs30.siteClass s))) ∧
    ((v.analyses r).vs30 = none → (render changes v).threw = true)

/-- The behaviour of `render` without a bound model as the specification words
it: it always completes. -/
def RenderUnboundAsStated (v : View) : Prop :=
  v.model = none → ∀ changes, (render changes v).threw = false

/-- The library the view is written for: the select box unbinds from its
collection on `destroy`, the base view deselects on `destroy`. -/
def hazdevTeardown : Teardown :=
  { selectBoxUnbinds := true, parentDeselects := true }

/-- The wired view with another selection in its site class collection. -/
def Wired.withSelected (w : Wired) (sel : Option SiteClass) : Wired :=
  w.withCollection { w.view.siteClassCollection with selected := sel }

/-- The wired view after `x` has been stored as the `vs30` of the model `r`. -/
def Wired.write (w : Wired) (r : Ref) (x : Vs30) : Wired :=
  { w with view := { w.view with
      analyses := Function.update w.view.analyses r
        { w.view.analyses r with vs30 := some x } } }

/-- The run ended normally in the state `w`. -/
def Run.EndsIn (o : Run) (w : Wired) : Prop :=
  o.wired = w ∧ o.threw = false ∧ o.outOfFuel = false

/-- The calls are calls of `deselect` and `selectById` only: no model is written
and the collection is not reset. -/
def QuietCalls (calls : List Call) : Prop :=
  ∀ c ∈ calls, c = Call.deselect ∨ ∃ i, c = Call.selectById i

/-- The listeners are those of a collection on which lines 65-67 have
registered `_updateSiteClass` for `select` and `deselect`, after listeners of
others. -/
def Registered (listeners : List Listener) : Prop :=
  ∃ pre : List Listener, (∀ l ∈ pre, l.callback ≠ Callback.updateSiteClass) ∧
    listeners = pre ++ [{ event := Event.select, callback := Callback.updateSiteClass },
      { event := Event.deselect, callback := Callback.updateSiteClass }]

/-- The model `r` is bound and agrees with the selection: nothing is selected
and `vs30` reads `null`, or the collection's item `t` is selected and is the
`vs30`. -/
def Synced (w : Wired) (r : Ref) : Prop :=
  w.view.model = some r ∧
  ((w.view.siteClassCollection.selected = none ∧ (w.view.analyses r).getVs30 = Vs30.null) ∨
   ∃ t, w.view.siteClassCollection.selected = some t ∧
     (w.view.analyses r).getVs30 = Vs30.siteClass t ∧
     w.view.siteClassCollection.get t.id = some t)

/-! ## Sample data -/

/-- Site class B. -/
def siteB : SiteClass := { id := 2, display := "B" }

/-- Site class C. -/
def siteC : SiteClass := { id := 3, display := "C" }

/-- A site class with the id of `siteC` and another label. -/
def siteC2 : SiteClass := { id := 3, display := "C (stale)" }

/-- A factory with two site classes, of which `siteC` passes every filter. -/
def sampleFactory : DependencyFactory :=
  { getAllSiteClasses := [siteB, siteC]
    getFilteredSiteClasses := fun _ _ _ => [siteC] }

/-- A site class collection holding both sample classes, `siteB` selected. -/
def sampleCollection : Collection :=
  { data := [siteB, siteC], selected := some siteB, listeners := [],
    reselectOnReset := true }

/-- Analysis objects: object 0 has edition, location and a stale copy of site
class C, object 1 has `vs30` stored as `null`, object 2 never had `vs30` set,
object 3 has `vs30` stored as `undefined`, every other object has a number as
`vs30`. -/
def sampleAnalyses : Ref → Analysis
  | 0 => { edition := some { id := 7 }, location := some { latitude := 40, longitude := -105 },
           vs30 := some (Vs30.siteClass siteC2) }
  | 1 => { edition := none, location := none, vs30 := some Vs30.null }
  | 2 => { edition := none, location := none, vs30 := none }
  | 3 => { edition := none, location := none, vs30 := some Vs30.undefined }
  | _ => { edition := none, location := none, vs30 := some (Vs30.other none) }

/-- A view bound to the analysis object `r`. -/
def sampleView (r : Option Ref) : View :=
  { analyses := sampleAnalyses
    selectedAnalysis := r
    model := r
    siteClassCollection := sampleCollection
    dependencyFactory := sampleFactory
    destroySiteClassCollection := false
    destroyDependencyFactory := false }

/-- Parameters that lend the sample collection, together with a listener of
somebody else, and pass no factory; analysis `r` is bound. -/
def sampleParams (r : Option Ref) : Params :=
  { vs30 := some { sampleCollection with
      listeners := [{ event := Event.select, callback := Callback.foreign 1 }] }
    editions := none
    factory := none
    factoryInstance := sampleFactory
    analyses := sampleAnalyses
    selectedAnalysis := r
    model := r
    reselectOnReset := true }

/-- Parameters without a site class collection and without a factory. -/
def sampleParamsOwned : Params :=
  { sampleParams none with vs30 := none }

/-! # Theorems -/

/-! ## Lemmas on the collection -/

theorem Collection.selectionOk_deselect (c : Collection) : SelectionOk c.deselect :=
  Or.inl rfl

theorem Collection.selectionOk_selectById (c : Collection) (id : Option Nat) :
    SelectionOk (c.selectById id) := by
  unfold SelectionOk
  cases h : id.bind c.get with
  | none => left; simp [Collection.selectById, h]
  | some s =>
    right
    refine ⟨s, by simp [Collection.selectById, h], ?_⟩
    cases id with
    | none => simp at h
    | some i =>
      simp only [Option.some_bind] at h
      simpa [Collection.selectById] using List.mem_of_find?_eq_some h

theorem Collection.selectionOk_reset (c : Collection) (data : List SiteClass) :
    SelectionOk (c.reset data) := by
  unfold SelectionOk
  cases hsel : (c.reset data).selected with
  | none => left; rfl
  | some s =>
    right
    refine ⟨s, rfl, ?_⟩
    have hd : (c.reset data).data = data := rfl
    rw [hd]
    unfold Collection.reset at hsel
    simp only at hsel
    split at hsel
    · cases hc : c.selected with
      | none => rw [hc] at hsel; cases hsel
      | some t =>
        rw [hc] at hsel
        exact List.mem_of_find?_eq_some hsel
    · cases hsel

theorem selectionOk_updateSelectBox (v : View) :
    SelectionOk (_updateSiteClassCollectionSelectBox v).view.siteClassCollection :=
  Collection.selectionOk_reset _ _

theorem selectionOk_renderSelection (v : View)
    (h : SelectionOk v.siteClassCollection) :
    SelectionOk (renderSelection v).view.siteClassCollection := by
  unfold renderSelection
  split
  · split
    · exact Collection.selectionOk_deselect _
    · exact h
    · exact Collection.selectionOk_selectById _ _
  · exact Collection.selectionOk_deselect _

theorem selectionOk_render (changes : Changes) (v : View)
    (h : SelectionOk v.siteClassCollection) :
    SelectionOk (render changes v).view.siteClassCollection := by
  unfold render
  split
  · exact selectionOk_renderSelection v h
  · exact h
  · split
    · exact selectionOk_updateSelectBox v
    · exact selectionOk_renderSelection v h

theorem selectionOk_andThen (o : Outcome) (f : View → Outcome)
    (ho : SelectionOk o.view.siteClassCollection)
    (hf : ∀ w, SelectionOk w.siteClassCollection → SelectionOk (f w).view.siteClassCollection) :
    SelectionOk (o.andThen f).view.siteClassCollection := by
  unfold Outcome.andThen
  split
  · exact ho
  · exact hf _ ho

theorem selectionOk_updateSiteClass (v : View) (h : SelectionOk v.siteClassCollection) :
    SelectionOk (_updateSiteClass v).view.siteClassCollection := by
  unfold _updateSiteClass
  split
  · exact h
  · exact h

theorem selectionOk_onCollectionDeselect (v : View) (h : SelectionOk v.siteClassCollection) :
    SelectionOk (onCollectionDeselect v).view.siteClassCollection := by
  unfold onCollectionDeselect
  split
  · exact h
  · refine selectionOk_andThen _ _ ?_ (fun w hw => selectionOk_render Changes.undefined w hw)
    exact selectionOk_andThen _ _ h (fun w _ => selectionOk_updateSelectBox w)

theorem selectionOk_onCollectionSelect (v : View) (h : SelectionOk v.siteClassCollection) :
    SelectionOk (onCollectionSelect v).view.siteClassCollection := by
  unfold onCollectionSelect
  refine selectionOk_andThen _ _ ?_ ?_
  · exact selectionOk_andThen _ _ h (fun w _ => selectionOk_updateSelectBox w)
  · intro w hw
    split
    · exact hw
    · exact selectionOk_andThen _ _ hw
        (fun u hu => selectionOk_render Changes.undefined u hu)

theorem selectionOk_whenReady (v : View) :
    SelectionOk (whenReadyCallback v).view.siteClassCollection :=
  selectionOk_andThen _ _ (selectionOk_updateSelectBox v)
    (fun w hw => selectionOk_render Changes.undefined w hw)

/-! ## C1 -/

/-- C1: at most one item is selected in the site class collection, and it is a
member of the data: every operation of the view (`render`, the reset of
`_updateSiteClassCollectionSelectBox`, `onCollectionSelect`,
`onCollectionDeselect`, and also `_updateSiteClass` and the `whenReady`
callback), run on a view whose collection has no selection or one selected
member, leaves the collection with no selection or one selected member of its
current data, whether or not the operation throws. -/
theorem selection_invariant (op : Op) (v : View)
    (h : SelectionOk v.siteClassCollection) :
    SelectionOk (op.run v).view.siteClassCollection := by
  cases op with
  | render changes => exact selectionOk_render changes v h
  | updateSiteClassCollectionSelectBox => exact selectionOk_updateSelectBox v
  | onCollectionSelect => exact selectionOk_onCollectionSelect v h
  | onCollectionDeselect => exact selectionOk_onCollectionDeselect v h
  | updateSiteClass => exact selectionOk_updateSiteClass v h
  | whenReady => exact selectionOk_whenReady v

/-- C1 at the sample view bound to analysis 0: selecting it leaves site class C,
the only member of the filtered data, selected. -/
theorem selection_invariant_witness :
    SelectionOk (sampleView (some 0)).siteClassCollection ∧
    SelectionOk (Op.onCollectionSelect.run (sampleView (some 0))).view.siteClassCollection ∧
    (Op.onCollectionSelect.run (sampleView (some 0))).view.siteClassCollection.selected
      = some siteC :=
  ⟨by decide, selection_invariant Op.onCollectionSelect (sampleView (some 0)) (by decide),
    by decide⟩

/-! ## C3: the options offered -/

/-- C3: `_updateSiteClassCollectionSelectBox` resets the site class collection
exactly once per call and never throws; the data handed to `reset` (and held by
the collection afterwards) is
`getFilteredSiteClasses(edition.id, location.latitude, location.longitude)`
when a model is bound and both its edition and its location are present, and
`getAllSiteClasses()` when no model is bound, or the edition is missing, or the
location is missing. -/
theorem updateSelectBox_resets_once (v : View) :
    (resetArgs (_updateSiteClassCollectionSelectBox v).calls).length = 1 ∧
    (_updateSiteClassCollectionSelectBox v).threw = false ∧
    resetArgs (_updateSiteClassCollectionSelectBox v).calls
      = [(_updateSiteClassCollectionSelectBox v).view.siteClassCollection.data] ∧
    (∀ r edition location, v.model = some r →
      (v.analyses r).edition = some edition → (v.analyses r).location = some location →
      resetArgs (_updateSiteClassCollectionSelectBox v).calls
        = [v.dependencyFactory.getFilteredSiteClasses edition.id
            location.latitude location.longitude]) ∧
    (v.model = none →
      resetArgs (_updateSiteClassCollectionSelectBox v).calls
        = [v.dependencyFactory.getAllSiteClasses]) ∧
    (∀ r, v.model = some r →
      (v.analyses r).edition = none ∨ (v.analyses r).location = none →
      resetArgs (_updateSiteClassCollectionSelectBox v).calls
        = [v.dependencyFactory.getAllSiteClasses]) := by
  refine ⟨?_, rfl, ?_, ?_, ?_, ?_⟩
  · cases hm : v.model with
    | none => simp [_updateSiteClassCollectionSelectBox, hm, resetArgs]
    | some r =>
      cases he : (v.analyses r).edition <;> cases hl : (v.analyses r).location <;>
        simp [_updateSiteClassCollectionSelectBox, hm, he, hl, resetArgs]
  · cases hm : v.model with
    | none => simp [_updateSiteClassCollectionSelectBox, hm, resetArgs, Collection.reset]
    | some r =>
      cases he : (v.analyses r).edition <;> cases hl : (v.analyses r).location <;>
        simp [_updateSiteClassCollectionSelectBox, hm, he, hl, resetArgs, Collection.reset]
  · intro r edition location hm he hl
    simp [_updateSiteClassCollectionSelectBox, hm, he, hl, resetArgs]
  · intro hm
    simp [_updateSiteClassCollectionSelectBox, hm, resetArgs]
  · intro r hm h
    rcases h with he | hl
    · simp [_updateSiteClassCollectionSelectBox, hm, he, resetArgs]
    · cases he : (v.analyses r).edition <;>
        simp [_updateSiteClassCollectionSelectBox, hm, he, hl, resetArgs]

/-- C3 on the sample views: bound to analysis 0 (edition 7 at 40, -105) the
collection is reset to the filtered classes, bound to analysis 1 (no edition)
and unbound to all classes. -/
theorem updateSelectBox_resets_once_witness :
    resetArgs (_updateSiteClassCollectionSelectBox (sampleView (some 0))).calls
      = [sampleFactory.getFilteredSiteClasses 7 40 (-105)] ∧
    (_updateSiteClassCollectionSelectBox (sampleView (some 0))).view.siteClassCollection.data
      = [siteC] ∧
    resetArgs (_updateSiteClassCollectionSelectBox (sampleView (some 1))).calls
      = [[siteB, siteC]] ∧
    resetArgs (_updateSiteClassCollectionSelectBox (sampleView none)).calls
      = [[siteB, siteC]] :=
  ⟨(updateSelectBox_resets_once (sampleView (some 0))).2.2.2.1 0 ⟨7⟩ ⟨40, -105⟩ rfl rfl rfl,
   by decide, by decide, by decide⟩

/-! ## C5: writing the selection back -/

/-- C5: with a bound model `_updateSiteClass` makes one call,
`model.set({'vs30': getSelected()})`: afterwards the model's `vs30` is the
selected site class (`null` when nothing is selected), its edition and location
are as before, every other analysis object, the binding and the site class
collection are unchanged; without a bound model the call changes nothing and
calls nothing.  It never throws. -/
theorem updateSiteClass_writes_vs30 (v : View) :
    (_updateSiteClass v).threw = false ∧
    (_updateSiteClass v).view.siteClassCollection = v.siteClassCollection ∧
    (_updateSiteClass v).view.model = v.model ∧
    (∀ r, v.model = some r →
      ((_updateSiteClass v).view.analyses r).vs30
        = some (Vs30.ofSelected v.siteClassCollection.getSelected) ∧
      ((_updateSiteClass v).view.analyses r).getVs30
        = Vs30.ofSelected v.siteClassCollection.getSelected ∧
      ((_updateSiteClass v).view.analyses r).edition = (v.analyses r).edition ∧
      ((_updateSiteClass v).view.analyses r).location = (v.analyses r).location ∧
      (∀ q, q ≠ r → (_updateSiteClass v).view.analyses q = v.analyses q) ∧
      (_updateSiteClass v).calls
        = [Call.modelSetVs30 r v.siteClassCollection.getSelected]) ∧
    (v.model = none →
      (_updateSiteClass v).view = v ∧ (_updateSiteClass v).calls = []) := by
  refine ⟨?_, ?_, ?_, ?_, ?_⟩
  · cases hm : v.model <;> simp [_updateSiteClass, hm]
  · cases hm : v.model <;> simp [_updateSiteClass, hm]
  · cases hm : v.model <;> simp [_updateSiteClass, hm]
  · intro r hm
    refine ⟨?_, ?_, ?_, ?_, ?_, ?_⟩
    · simp [_updateSiteClass, hm]
    · simp [_updateSiteClass, hm, Analysis.getVs30]
    · simp [_updateSiteClass, hm]
    · simp [_updateSiteClass, hm]
    · intro q hq
      simp [_updateSiteClass, hm, Function.update, hq]
    · simp [_updateSiteClass, hm]
  · intro hm
    simp [_updateSiteClass, hm]

/-- C5 on the sample view bound to analysis 0: site class B, the selected one,
is written to `vs30`; analysis 1 keeps its `null`. -/
theorem updateSiteClass_writes_vs30_witness :
    ((_updateSiteClass (sampleView (some 0))).view.analyses 0).vs30
      = some (Vs30.siteClass siteB) ∧
    ((_updateSiteClass (sampleView (some 0))).view.analyses 1).vs30 = some Vs30.null ∧
    (_updateSiteClass (sampleView none)).calls = [] :=
  ⟨((updateSiteClass_writes_vs30 (sampleView (some 0))).2.2.2.1 0 rfl).1,
   by decide, by decide⟩

/-! ## C2: what `render` does to the selection -/

theorem render_eq_renderSelection {changes : Changes}
    (h : NoLocationOrEditionChange changes) (v : View) :
    render changes v = renderSelection v := by
  rcases h with rfl | ⟨keys, rfl, h1, h2⟩
  · rfl
  · simp [render, h1, h2]

/-- What `render` does whenever `model.get('vs30')` is not `undefined`, for a
call without a `changes` argument or with changes that have neither `location`
nor `edition`: without a bound model and with a `vs30` of `null` (stored, or
never set) the collection is deselected; for every other value `selectById` is
the one call, with exactly the result of reading the value's `id`; the data of
the collection is not reset. -/
theorem render_selects (changes : Changes) (v : View)
    (h : NoLocationOrEditionChange changes) :
    (v.model = none →
      (render changes v).calls = [Call.deselect] ∧
      (render changes v).view.siteClassCollection.selected = none ∧
      (render changes v).threw = false) ∧
    (∀ r, v.model = some r → (v.analyses r).getVs30 = Vs30.null →
      (render changes v).calls = [Call.deselect] ∧
      (render changes v).view.siteClassCollection.selected = none ∧
      (render changes v).threw = false) ∧
    (∀ r, v.model = some r → (v.analyses r).getVs30 ≠ Vs30.null →
      (v.analyses r).getVs30 ≠ Vs30.undefined →
      (render changes v).calls = [Call.selectById (v.analyses r).getVs30.id] ∧
      (render changes v).view.siteClassCollection
        = v.siteClassCollection.selectById (v.analyses r).getVs30.id ∧
      (render changes v).threw = false) ∧
    ((∀ r, v.model = some r → (v.analyses r).getVs30 ≠ Vs30.undefined) →
      resetArgs (render changes v).calls = [] ∧
      (render changes v).view.siteClassCollection.data = v.siteClassCollection.data) := by
  rw [render_eq_renderSelection h]
  refine ⟨?_, ?_, ?_, ?_⟩
  · intro hm
    simp [renderSelection, hm, Collection.deselect]
  · intro r hm hv
    simp [renderSelection, hm, hv, Collection.deselect]
  · intro r hm hv1 hv2
    cases hv : (v.analyses r).getVs30 <;> simp_all [renderSelection]
  · intro hall
    cases hm : v.model with
    | none => simp [renderSelection, hm, resetArgs, Collection.deselect]
    | some r =>
      have := hall r hm
      cases hv : (v.analyses r).getVs30 <;>
        simp_all [renderSelection, resetArgs, Collection.deselect, Collection.selectById]

/-- C2: the defect.  On the sample view bound to analysis 3, whose `vs30` is
stored as `undefined`, `render()` throws on reading `siteClass.id`: it neither
deselects nor calls `selectById`, and site class B stays selected in the box.
The sibling cases on the same view do render: bound to analysis 1 (`null`) or
2 (never set) or unbound it deselects, bound to analysis 0 it calls
`selectById(3)`. -/
theorem render_stored_undefined_throws :
    (sampleAnalyses 3).vs30 = some Vs30.undefined ∧
    (render Changes.undefined (sampleView (some 3))).threw = true ∧
    (render Changes.undefined (sampleView (some 3))).calls = [] ∧
    (render Changes.undefined (sampleView (some 3))).view.siteClassCollection.selected
      = some siteB ∧
    (render Changes.undefined (sampleView (some 1))).calls = [Call.deselect] ∧
    (render Changes.undefined (sampleView (some 2))).calls = [Call.deselect] ∧
    (render Changes.undefined (sampleView none)).calls = [Call.deselect] ∧
    (render Changes.undefined (sampleView (some 0))).calls = [Call.selectById (some 3)] := by
  refine ⟨rfl, ?_, ?_, ?_, ?_, ?_, ?_, ?_⟩ <;> decide

/-! ## C7: when `render` completes -/

theorem Collection.get_id {c : Collection} {id : Nat} {t : SiteClass}
    (h : c.get id = some t) : t.id = id := by
  have := List.find?_some h
  simpa using this

theorem Collection.get_mem {c : Collection} {id : Nat} {t : SiteClass}
    (h : c.get id = some t) : t ∈ c.data :=
  List.mem_of_find?_eq_some h

theorem Collection.get_isSome_of_mem {c : Collection} {id : Nat} {t : SiteClass}
    (hmem : t ∈ c.data) (hid : t.id = id) : ∃ u, c.get id = some u := by
  cases hg : c.get id with
  | some u => exact ⟨u, rfl⟩
  | none =>
    have := List.find?_eq_none.mp hg t hmem
    simp [hid] at this

theorem Collection.get_eq_of_distinct {c : Collection} (hd : DistinctIds c.data)
    {t : SiteClass} (hmem : t ∈ c.data) : c.get t.id = some t := by
  obtain ⟨u, hu⟩ := Collection.get_isSome_of_mem hmem rfl
  have huid : u.id = t.id := Collection.get_id hu
  have humem : u ∈ c.data := Collection.get_mem hu
  have : u = t := List.inj_on_of_nodup_map hd humem hmem huid
  rw [hu, this]

/-- C7, counterexample: on the sample view bound to analysis 2, whose `vs30`
was never set, `render()` reads `null`, deselects and completes, where the
statement has it throw; and on the unbound sample view `render(null)` throws,
where the statement has `render` always complete. -/
theorem render_completes_as_stated_fails :
    (sampleAnalyses 2).vs30 = none ∧
    (render Changes.undefined (sampleView (some 2))).threw = false ∧
    (render Changes.undefined (sampleView (some 2))).calls = [Call.deselect] ∧
    ¬ RenderBoundAsStated Changes.undefined (sampleView (some 2)) ∧
    (sampleView none).model = none ∧
    (render Changes.null (sampleView none)).threw = true ∧
    ¬ RenderUnboundAsStated (sampleView none) := by
  refine ⟨rfl, rfl, rfl, ?_, rfl, rfl, ?_⟩
  · intro h
    have h2 := (h 2 rfl).1.mp rfl
    rcases h2 with h3 | ⟨s, h3⟩
    · cases h3
    · cases h3
  · intro h
    have h2 := h rfl Changes.null
    have h3 : (render Changes.null (sampleView none)).threw = true := rfl
    rw [h3] at h2
    cases h2

/-- C7, amended: let the ids within the site class collection be distinct and
the `changes` argument be absent or an object.  With a bound model and no
change of location or edition, `render` completes whenever `model.get('vs30')`
is not `undefined`: for `null`, which is also what a model reads whose `vs30`
was never set, it deselects; for every other value the result of reading its
`id` is handed to `selectById`, and an item of the collection with that id is
then the selected one.  Without a bound model `render` completes: it deselects,
or, for changes with a location or an edition and distinct ids among the
factory's site classes, resets the collection. -/
theorem render_completes (changes : Changes) (v : View)
    (hn : changes ≠ Changes.null) (hd : DistinctIds v.siteClassCollection.data) :
    (v.model = none → NoLocationOrEditionChange changes →
      (render changes v).threw = false ∧ (render changes v).calls = [Call.deselect]) ∧
    (v.model = none → DistinctIds v.dependencyFactory.getAllSiteClasses →
      (render changes v).threw = false) ∧
    (∀ r, v.model = some r → NoLocationOrEditionChange changes →
      (v.analyses r).getVs30 ≠ Vs30.undefined → (render changes v).threw = false) ∧
    (∀ r, v.model = some r → NoLocationOrEditionChange changes →
      (v.analyses r).vs30 = none →
      (render changes v).threw = false ∧ (render changes v).calls = [Call.deselect] ∧
      (render changes v).view.siteClassCollection.selected = none) ∧
    (∀ r, v.model = some r → NoLocationOrEditionChange changes →
      (v.analyses r).getVs30 ≠ Vs30.null → (v.analyses r).getVs30 ≠ Vs30.undefined →
      (render changes v).calls = [Call.selectById (v.analyses r).getVs30.id] ∧
      ∀ t ∈ v.siteClassCollection.data, (v.analyses r).getVs30.id = some t.id →
        (render changes v).view.siteClassCollection.selected = some t) := by
  refine ⟨?_, ?_, ?_, ?_, ?_⟩
  · intro hm hc
    exact ⟨((render_selects changes v hc).1 hm).2.2, ((render_selects changes v hc).1 hm).1⟩
  · intro hm _
    cases changes with
    | undefined => simp [render, renderSelection, hm]
    | null => exact absurd rfl hn
    | object keys =>
      unfold render
      simp only
      split
      · rfl
      · simp [renderSelection, hm]
  · intro r hm hc hv
    rw [render_eq_renderSelection hc]
    cases hx : (v.analyses r).getVs30 <;> simp_all [renderSelection]
  · intro r hm hc hv
    have hg : (v.analyses r).getVs30 = Vs30.null := by simp [Analysis.getVs30, hv]
    exact ⟨((render_selects changes v hc).2.1 r hm hg).2.2,
      ((render_selects changes v hc).2.1 r hm hg).1,
      ((render_selects changes v hc).2.1 r hm hg).2.1⟩
  · intro r hm hc hv1 hv2
    obtain ⟨hcalls, hview, _⟩ := (render_selects changes v hc).2.2.1 r hm hv1 hv2
    refine ⟨hcalls, ?_⟩
    intro t ht hid
    rw [hview, hid]
    simp [Collection.selectById, Collection.get_eq_of_distinct hd ht]

/-- C7 (amended) at the sample views with a change of `vs30` only: bound to
analysis 0 site class C ends up selected, bound to analysis 4, whose `vs30` is
a number, `render` completes as well. -/
theorem render_completes_witness :
    (render (Changes.object [Attr.vs30]) (sampleView (some 0))).view.siteClassCollection.selected
      = some siteC ∧
    (render (Changes.object [Attr.vs30]) (sampleView (some 4))).threw = false :=
  ⟨((render_completes (Changes.object [Attr.vs30]) (sampleView (some 0)) (by decide)
      (by decide)).2.2.2.2 0 rfl (by decide) (by decide) (by decide)).2 siteC (by decide) rfl,
   (render_completes (Changes.object [Attr.vs30]) (sampleView (some 4)) (by decide)
      (by decide)).2.2.1 4 rfl (by decide) (by decide)⟩

/-! ## C6: ownership on teardown -/

theorem SameOwnership.refl (v : View) : SameOwnership v v := ⟨rfl, rfl, rfl⟩

theorem SameOwnership.trans {u v w : View} (h1 : SameOwnership u v)
    (h2 : SameOwnership v w) : SameOwnership u w :=
  ⟨h2.1.trans h1.1, h2.2.1.trans h1.2.1, h2.2.2.trans h1.2.2⟩

theorem sameOwnership_updateSelectBox (v : View) :
    SameOwnership v (_updateSiteClassCollectionSelectBox v).view := ⟨rfl, rfl, rfl⟩

theorem sameOwnership_renderSelection (v : View) :
    SameOwnership v (renderSelection v).view := by
  unfold renderSelection
  split
  · split <;> exact ⟨rfl, rfl, rfl⟩
  · exact ⟨rfl, rfl, rfl⟩

theorem sameOwnership_render (changes : Changes) (v : View) :
    SameOwnership v (render changes v).view := by
  unfold render
  split
  · exact sameOwnership_renderSelection v
  · exact ⟨rfl, rfl, rfl⟩
  · split
    · exact sameOwnership_updateSelectBox v
    · exact sameOwnership_renderSelection v

theorem sameOwnership_updateSiteClass (v : View) :
    SameOwnership v (_updateSiteClass v).view := by
  unfold _updateSiteClass
  split <;> exact ⟨rfl, rfl, rfl⟩

theorem sameOwnership_andThen (v : View) (o : Outcome) (f : View → Outcome)
    (ho : SameOwnership v o.view) (hf : ∀ w, SameOwnership w (f w).view) :
    SameOwnership v (o.andThen f).view := by
  unfold Outcome.andThen
  split
  · exact ho
  · exact ho.trans (hf _)

theorem sameOwnership_run (op : Op) (v : View) : SameOwnership v (op.run v).view := by
  cases op with
  | render changes => exact sameOwnership_render changes v
  | updateSiteClassCollectionSelectBox => exact sameOwnership_updateSelectBox v
  | onCollectionSelect =>
    show SameOwnership v (onCollectionSelect v).view
    unfold onCollectionSelect
    refine sameOwnership_andThen _ _ _ ?_ ?_
    · exact sameOwnership_andThen _ _ _ ⟨rfl, rfl, rfl⟩ sameOwnership_updateSelectBox
    · intro w
      split
      · exact ⟨rfl, rfl, rfl⟩
      · exact sameOwnership_andThen _ _ _ ⟨rfl, rfl, rfl⟩
          (sameOwnership_render Changes.undefined)
  | onCollectionDeselect =>
    show SameOwnership v (onCollectionDeselect v).view
    unfold onCollectionDeselect
    split
    · exact ⟨rfl, rfl, rfl⟩
    · refine sameOwnership_andThen _ _ _ ?_ (sameOwnership_render Changes.undefined)
      exact sameOwnership_andThen _ _ _ ⟨rfl, rfl, rfl⟩ sameOwnership_updateSelectBox
  | updateSiteClass => exact sameOwnership_updateSiteClass v
  | whenReady =>
    exact sameOwnership_andThen _ _ _ (sameOwnership_updateSelectBox v)
      (sameOwnership_render Changes.undefined)

theorem sameOwnership_runOps (ops : List Op) (v : View) :
    SameOwnership v (runOps ops v) := by
  induction ops generalizing v with
  | nil => exact SameOwnership.refl v
  | cons op rest ih =>
    exact (sameOwnership_run op v).trans (ih (op.run v).view)

theorem destroy_calls (lib : Teardown) (v : View) :
    (destroy lib v).calls =
      [Call.collectionOff Event.select Callback.updateSiteClass,
       Call.collectionOff Event.deselect Callback.updateSiteClass]
      ++ (if v.destroySiteClassCollection then [Call.collectionDestroy] else [])
      ++ (if v.destroyDependencyFactory then [Call.factoryDestroy] else [])
      ++ [Call.selectBoxDestroy]
      ++ (if lib.selectBoxUnbinds && v.destroySiteClassCollection then []
          else if lib.parentDeselects && v.model.isSome then
            [Call.parentDestroy, Call.onCollectionDeselect]
          else [Call.parentDestroy]) := by
  rcases lib with ⟨a, b⟩
  cases a <;> cases b <;> cases h1 : v.destroySiteClassCollection <;>
    cases h2 : v.destroyDependencyFactory <;> cases h3 : v.model <;>
    simp [destroy, h1, h2, h3]

theorem destroy_collection (lib : Teardown) (v : View) :
    (destroy lib v).siteClassCollection =
      (v.siteClassCollection.offEvent Event.select Callback.updateSiteClass).offEvent
        Event.deselect Callback.updateSiteClass := by
  rcases lib with ⟨a, b⟩
  cases a <;> cases b <;> cases h1 : v.destroySiteClassCollection <;>
    cases h3 : v.model <;> simp [destroy, h1, h3]

theorem destroy_listeners (lib : Teardown) (v : View) :
    (destroy lib v).siteClassCollection.listeners =
      v.siteClassCollection.listeners.filter (fun l => !l.isUpdateSiteClass) := by
  rw [destroy_collection]
  simp only [Collection.offEvent, List.filter_filter]
  apply List.filter_congr
  intro l _
  rcases l with ⟨e, cb⟩
  cases e <;> cases cb <;> rfl

theorem destroy_outcome (lib : Teardown) (v : View) :
    (destroy lib v).cleanedUp = !(lib.selectBoxUnbinds && v.destroySiteClassCollection) ∧
    (destroy lib v).threw =
      ((lib.selectBoxUnbinds && v.destroySiteClassCollection) ||
        (lib.parentDeselects && v.model.isSome)) ∧
    (destroy lib v).collectionDestroyed = v.destroySiteClassCollection := by
  rcases lib with ⟨a, b⟩
  cases a <;> cases b <;> cases h1 : v.destroySiteClassCollection <;>
    cases h3 : v.model <;> simp [destroy, h1, h3]

/-- C6: let a view be made by `_initialize`, used through any sequence of its
operations, and destroyed, whatever the select box and the base view do on
their `destroy`.  A collection passed as `params.vs30` is the one given to the
select box and the one the view works on, and `destroy` does not destroy it;
without one the view makes its own collection and `destroy` destroys it (once).
`destroy` destroys the factory exactly when none was passed in
`params.factory`.  In every case `destroy` calls `off` for `_updateSiteClass` on
`select` and on `deselect`, after which the collection has no such listener (a
borrowed collection has its earlier listeners back), and calls the select box's
`destroy` exactly once, after the collection's and the factory's.  `destroy`
itself ends in a throw exactly when the select box unbinds from an owned,
already destroyed collection (then lines 159-168 and the base view's `destroy`
do not run), or when the base view's `destroy` calls `onCollectionDeselect` on
a bound model after line 167 has set `_this` to `null`. -/
theorem destroy_ownership (lib : Teardown) (params : Params) (ops : List Op) :
    (∀ c, params.vs30 = some c →
      Call.createSelectBox c ∈ ( _initialize params).calls ∧
      Call.createCollection ∉ ( _initialize params).calls ∧
      ( _initialize params).view.siteClassCollection.data = c.data ∧
      ( _initialize params).view.siteClassCollection.selected = c.selected ∧
      Call.collectionDestroy ∉ (destroy lib (runOps ops ( _initialize params).view)).calls ∧
      (destroy lib (runOps ops ( _initialize params).view)).collectionDestroyed = false ∧
      (destroy lib (runOps ops ( _initialize params).view)).siteClassCollection.listeners
        = c.listeners.filter (fun l => !l.isUpdateSiteClass)) ∧
    (params.vs30 = none →
      Call.createCollection ∈ ( _initialize params).calls ∧
      Call.createSelectBox (Collection.empty params.reselectOnReset)
        ∈ ( _initialize params).calls ∧
      (destroy lib (runOps ops ( _initialize params).view)).calls.count
        Call.collectionDestroy = 1 ∧
      (destroy lib (runOps ops ( _initialize params).view)).collectionDestroyed = true) ∧
    (Call.factoryDestroy ∈ (destroy lib (runOps ops ( _initialize params).view)).calls
      ↔ params.factory = none) ∧
    (∀ f, params.factory = some f →
      ( _initialize params).view.dependencyFactory = f) ∧
    Call.collectionOff Event.select Callback.updateSiteClass
      ∈ (destroy lib (runOps ops ( _initialize params).view)).calls ∧
    Call.collectionOff Event.deselect Callback.updateSiteClass
      ∈ (destroy lib (runOps ops ( _initialize params).view)).calls ∧
    (∀ l ∈ (destroy lib (runOps ops ( _initialize params).view)).siteClassCollection.listeners,
      l.isUpdateSiteClass = false) ∧
    (destroy lib (runOps ops ( _initialize params).view)).calls.count Call.selectBoxDestroy
      = 1 ∧
    ((destroy lib (runOps ops ( _initialize params).view)).threw = true ↔
      (lib.selectBoxUnbinds = true ∧ params.vs30 = none) ∨
      (lib.parentDeselects = true ∧ (runOps ops ( _initialize params).view).model ≠ none)) ∧
    ((destroy lib (runOps ops ( _initialize params).view)).cleanedUp = true ↔
      ¬ (lib.selectBoxUnbinds = true ∧ params.vs30 = none)) ∧
    (Call.parentDestroy ∈ (destroy lib (runOps ops ( _initialize params).view)).calls ↔
      (destroy lib (runOps ops ( _initialize params).view)).cleanedUp = true) := by
  obtain ⟨hsc, hdf, hls⟩ := sameOwnership_runOps ops ( _initialize params).view
  have hcalls := destroy_calls lib (runOps ops ( _initialize params).view)
  have hlist := destroy_listeners lib (runOps ops ( _initialize params).view)
  obtain ⟨hclean, hthrew, hcd⟩ := destroy_outcome lib (runOps ops ( _initialize params).view)
  rw [hsc] at hclean hthrew hcd
  rw [hsc, hdf] at hcalls
  rw [hls] at hlist
  have hown : ( _initialize params).view.destroySiteClassCollection = true ↔
      params.vs30 = none := by
    cases hc : params.vs30 <;> simp [ _initialize, hc]
  have hownf : ( _initialize params).view.destroyDependencyFactory = true ↔
      params.factory = none := by
    cases hf : params.factory <;> simp [ _initialize, hf]
  refine ⟨?_, ?_, ?_, ?_, ?_, ?_, ?_, ?_, ?_, ?_, ?_⟩
  · intro c hc
    have hno : ( _initialize params).view.destroySiteClassCollection = false := by
      simp [ _initialize, hc]
    refine ⟨?_, ?_, ?_, ?_, ?_, ?_, ?_⟩
    · simp [ _initialize, hc]
    · cases hf : params.factory <;> simp [ _initialize, hc, hf]
    · simp [ _initialize, hc, Collection.onEvent]
    · simp [ _initialize, hc, Collection.onEvent]
    · rw [hcalls, hno]
      cases ( _initialize params).view.destroyDependencyFactory <;>
        cases lib.parentDeselects <;>
        cases (runOps ops ( _initialize params).view).model <;> simp
    · rw [hcd, hno]
    · rw [hlist]
      simp [ _initialize, hc, Collection.onEvent, List.filter_append,
        Listener.isUpdateSiteClass]
  · intro hc
    have hyes : ( _initialize params).view.destroySiteClassCollection = true := hown.mpr hc
    refine ⟨?_, ?_, ?_, ?_⟩
    · simp [ _initialize, hc]
    · simp [ _initialize, hc]
    · rw [hcalls, hyes]
      cases ( _initialize params).view.destroyDependencyFactory <;>
        cases lib.selectBoxUnbinds <;> cases lib.parentDeselects <;>
        cases (runOps ops ( _initialize params).view).model <;> simp [List.count_cons]
    · rw [hcd, hyes]
  · rw [hcalls, ← hownf]
    cases ( _initialize params).view.destroySiteClassCollection <;>
      cases ( _initialize params).view.destroyDependencyFactory <;>
      cases lib.selectBoxUnbinds <;> cases lib.parentDeselects <;>
      cases (runOps ops ( _initialize params).view).model <;> simp
  · intro f hf
    simp [ _initialize, hf]
  · rw [hcalls]; simp
  · rw [hcalls]; simp
  · intro l hl
    rw [hlist] at hl
    have := (List.mem_filter.mp hl).2
    simpa using this
  · rw [hcalls]
    cases ( _initialize params).view.destroySiteClassCollection <;>
      cases ( _initialize params).view.destroyDependencyFactory <;>
      cases lib.selectBoxUnbinds <;> cases lib.parentDeselects <;>
      cases (runOps ops ( _initialize params).view).model <;> simp [List.count_cons]
  · rw [hthrew, ← hown]
    cases ( _initialize params).view.destroySiteClassCollection <;>
      cases lib.selectBoxUnbinds <;> cases lib.parentDeselects <;>
      cases (runOps ops ( _initialize params).view).model <;> simp
  · rw [hclean, ← hown]
    cases ( _initialize params).view.destroySiteClassCollection <;>
      cases lib.selectBoxUnbinds <;> simp
  · rw [hcalls, hclean]
    cases ( _initialize params).view.destroySiteClassCollection <;>
      cases ( _initialize params).view.destroyDependencyFactory <;>
      cases lib.selectBoxUnbinds <;> cases lib.parentDeselects <;>
      cases (runOps ops ( _initialize params).view).model <;> simp

/-- A collection passed under the `editions` key of the usage comment plays no
part: `_initialize` reads `params.vs30` only. -/
theorem initialize_ignores_editions (params : Params) (c : Option Collection) :
    ( _initialize { params with editions := c }).calls = ( _initialize params).calls ∧
    ( _initialize { params with editions := c }).view.siteClassCollection
      = ( _initialize params).view.siteClassCollection := ⟨rfl, rfl⟩

/-- With the select box unbinding and the base view deselecting on `destroy`:
a view with an owned collection throws inside the select box's `destroy`,
before lines 159-168 and the base view's `destroy`; a view with a borrowed
collection and a bound model throws in the `onCollectionDeselect` called by the
base view's `destroy`; a view with a borrowed collection and no bound model
completes. -/
theorem destroy_on_samples :
    (destroy hazdevTeardown ( _initialize sampleParamsOwned).view).calls
      = [Call.collectionOff Event.select Callback.updateSiteClass,
         Call.collectionOff Event.deselect Callback.updateSiteClass,
         Call.collectionDestroy, Call.factoryDestroy, Call.selectBoxDestroy] ∧
    (destroy hazdevTeardown ( _initialize sampleParamsOwned).view).threw = true ∧
    (destroy hazdevTeardown ( _initialize sampleParamsOwned).view).cleanedUp = false ∧
    (destroy hazdevTeardown ( _initialize (sampleParams (some 0))).view).threw = true ∧
    (destroy hazdevTeardown ( _initialize (sampleParams (some 0))).view).cleanedUp = true ∧
    (destroy hazdevTeardown ( _initialize (sampleParams none)).view).threw = false ∧
    (destroy hazdevTeardown ( _initialize (sampleParams none)).view).calls
      = [Call.collectionOff Event.select Callback.updateSiteClass,
         Call.collectionOff Event.deselect Callback.updateSiteClass,
         Call.factoryDestroy, Call.selectBoxDestroy, Call.parentDestroy] := by
  refine ⟨?_, ?_, ?_, ?_, ?_, ?_, ?_⟩ <;> decide

/-- C6 on the sample parameters that lend a collection and bind analysis 0,
with a selection and a render in between: the borrowed collection is not
destroyed and gets its one foreign listener back, the factory the view fetched
itself is destroyed, the select box is destroyed once, and the base view's
`destroy` ends in a throw. -/
theorem destroy_ownership_witness :
    (destroy hazdevTeardown (runOps [Op.onCollectionSelect, Op.render Changes.undefined]
        ( _initialize (sampleParams (some 0))).view)).calls
      = [Call.collectionOff Event.select Callback.updateSiteClass,
         Call.collectionOff Event.deselect Callback.updateSiteClass,
         Call.factoryDestroy, Call.selectBoxDestroy, Call.parentDestroy,
         Call.onCollectionDeselect] ∧
    (destroy hazdevTeardown (runOps [Op.onCollectionSelect, Op.render Changes.undefined]
        ( _initialize (sampleParams (some 0))).view)).siteClassCollection.listeners
      = [{ event := Event.select, callback := Callback.foreign 1 }] ∧
    Call.factoryDestroy ∈ (destroy hazdevTeardown
      (runOps [Op.onCollectionSelect, Op.render Changes.undefined]
        ( _initialize (sampleParams (some 0))).view)).calls :=
  ⟨by decide, by decide,
   (destroy_ownership hazdevTeardown (sampleParams (some 0))
      [Op.onCollectionSelect, Op.render Changes.undefined]).2.2.1.mpr rfl⟩

/-! ## C4: the two directions agree -/

theorem Run.done_andThen (w : Wired) (f : Wired → Run) : (Run.done w).andThen f = f w := by
  simp [Run.andThen, Run.done]

theorem Run.EndsIn.andThen {o : Run} {f : Wired → Run} {w1 w2 : Wired}
    (h1 : o.EndsIn w1) (h2 : (f w1).EndsIn w2) :
    (o.andThen f).EndsIn w2 ∧ (o.andThen f).calls = o.calls ++ (f w1).calls := by
  obtain ⟨ha, hb, hc⟩ := h1
  obtain ⟨hd, he, hf⟩ := h2
  subst ha
  simp [Run.andThen, Run.EndsIn, hb, hc, hd, he, hf]

theorem Run.after_endsIn {o : Run} {w : Wired} (cs : List Call) (h : o.EndsIn w) :
    (Run.after cs o).EndsIn w := h

theorem Run.done_endsIn (w : Wired) : (Run.done w).EndsIn w := ⟨rfl, rfl, rfl⟩

theorem Run.times_endsIn (k : Nat) (f : Wired → Run) (w : Wired)
    (h : (f w).EndsIn w) (hq : QuietCalls (f w).calls) :
    (Run.times k f w).EndsIn w ∧ QuietCalls (Run.times k f w).calls := by
  induction k with
  | zero =>
    refine ⟨Run.done_endsIn w, ?_⟩
    intro c hc
    simp [Run.times, Run.done] at hc
  | succ k ih =>
    have h2 := Run.EndsIn.andThen h ih.1
    refine ⟨h2.1, ?_⟩
    intro c hc
    have hc2 : c ∈ ((f w).andThen (Run.times k f)).calls := hc
    rw [h2.2] at hc2
    rcases List.mem_append.mp hc2 with h3 | h3
    · exact hq c h3
    · exact ih.2 c h3

theorem Wired.deselect_none (n : Nat) (w : Wired)
    (h : w.view.siteClassCollection.selected = none) :
    Wired.deselect (n + 1) w = Run.done w := by
  simp [Wired.deselect, h]

theorem Wired.select_same (n : Nat) (w : Wired) (t : SiteClass)
    (h : w.view.siteClassCollection.selected = some t) :
    Wired.select (n + 1) t w = Run.done w := by
  simp [Wired.select, h]

theorem Wired.render_noChange (n : Nat) {changes : Changes}
    (h : NoLocationOrEditionChange changes) (w : Wired) :
    Wired.render (n + 1) changes w = Wired.renderSelection n w := by
  rcases h with rfl | ⟨keys, rfl, h1, h2⟩
  · simp [Wired.render]
  · simp [Wired.render, h1, h2]

theorem Wired.renderSelection_synced (n : Nat) (w : Wired) (r : Ref) (h : Synced w r) :
    (Wired.renderSelection (n + 3) w).EndsIn w ∧
    QuietCalls (Wired.renderSelection (n + 3) w).calls := by
  obtain ⟨hm, hs⟩ := h
  rcases hs with ⟨hsel, hv⟩ | ⟨t, hsel, hv, hg⟩
  · have : Wired.renderSelection (n + 3) w = Run.after [Call.deselect] (Run.done w) := by
      simp [Wired.renderSelection, hm, hv, Wired.deselect_none, hsel]
    rw [this]
    refine ⟨⟨rfl, rfl, rfl⟩, ?_⟩
    intro c hc
    simp [Run.after, Run.done] at hc
    exact Or.inl hc
  · have : Wired.renderSelection (n + 3) w
        = Run.after [Call.selectById (some t.id)] (Run.done w) := by
      simp [Wired.renderSelection, hm, hv, Vs30.id, Wired.selectById, hg,
        Wired.select_same, hsel]
    rw [this]
    refine ⟨⟨rfl, rfl, rfl⟩, ?_⟩
    intro c hc
    simp [Run.after, Run.done] at hc
    exact Or.inr ⟨_, hc⟩

theorem Wired.renderSelection_synced_of_le (m : Nat) (hm : 3 ≤ m) (w : Wired) (r : Ref)
    (h : Synced w r) :
    (Wired.renderSelection m w).EndsIn w ∧ QuietCalls (Wired.renderSelection m w).calls := by
  obtain ⟨n, rfl⟩ : ∃ n, m = n + 3 := ⟨m - 3, by omega⟩
  exact Wired.renderSelection_synced n w r h

theorem Wired.render_synced (m : Nat) (hm : 4 ≤ m) (changes : Changes)
    (hc : NoLocationOrEditionChange changes) (w : Wired) (r : Ref) (h : Synced w r) :
    (Wired.render m changes w).EndsIn w ∧ QuietCalls (Wired.render m changes w).calls := by
  obtain ⟨n, rfl⟩ : ∃ n, m = n + 3 + 1 := ⟨m - 4, by omega⟩
  rw [Wired.render_noChange (n + 3) hc]
  exact Wired.renderSelection_synced n w r h

theorem Synced.write (w : Wired) (r : Ref)
    (hm : w.view.model = some r)
    (hg : ∀ t, w.view.siteClassCollection.selected = some t →
      w.view.siteClassCollection.get t.id = some t) :
    Synced (w.write r (Vs30.ofSelected w.view.siteClassCollection.selected)) r := by
  refine ⟨hm, ?_⟩
  cases hsel : w.view.siteClassCollection.selected with
  | none =>
    left
    refine ⟨hsel, ?_⟩
    simp [Wired.write, Analysis.getVs30, Vs30.ofSelected]
  | some t =>
    right
    refine ⟨t, hsel, ?_, hg t hsel⟩
    simp [Wired.write, Analysis.getVs30, Vs30.ofSelected]

theorem Wired.modelSet_endsIn (m : Nat) (hfuel : 5 ≤ m) (w : Wired) (r : Ref)
    (hm : w.view.model = some r)
    (hg : ∀ t, w.view.siteClassCollection.selected = some t →
      w.view.siteClassCollection.get t.id = some t) :
    (Wired.modelSet m r w.view.siteClassCollection.selected w).EndsIn
      (w.write r (Vs30.ofSelected w.view.siteClassCollection.selected)) ∧
    QuietCalls (Wired.modelSet m r w.view.siteClassCollection.selected w).calls := by
  obtain ⟨n, rfl⟩ : ∃ n, m = n + 1 := ⟨m - 1, by omega⟩
  have hs := Synced.write w r hm hg
  have hr := Wired.render_synced n (by omega) (Changes.object [Attr.vs30])
    (by decide) _ r hs
  have ht := Run.times_endsIn (w.renderOnChange r)
    (fun u => Wired.render n (Changes.object [Attr.vs30]) u)
    (w.write r (Vs30.ofSelected w.view.siteClassCollection.selected)) hr.1 hr.2
  by_cases hsame : (w.view.analyses r).vs30
      = some (Vs30.ofSelected w.view.siteClassCollection.selected)
  · have : Wired.modelSet (n + 1) r w.view.siteClassCollection.selected w
        = Run.done (w.write r (Vs30.ofSelected w.view.siteClassCollection.selected)) := by
      simp [Wired.modelSet, hsame, Wired.write]
    rw [this]
    refine ⟨Run.done_endsIn _, ?_⟩
    intro c hc
    simp [Run.done] at hc
  · have : Wired.modelSet (n + 1) r w.view.siteClassCollection.selected w
        = Run.times (w.renderOnChange r)
            (fun u => Wired.render n (Changes.object [Attr.vs30]) u)
            (w.write r (Vs30.ofSelected w.view.siteClassCollection.selected)) := by
      simp [Wired.modelSet, hsame, Wired.write]
    rw [this]
    exact ht

theorem Wired.updateSiteClass_endsIn (m : Nat) (hfuel : 6 ≤ m) (w : Wired) (r : Ref)
    (hm : w.view.model = some r)
    (hg : ∀ t, w.view.siteClassCollection.selected = some t →
      w.view.siteClassCollection.get t.id = some t) :
    (Wired._updateSiteClass m w).EndsIn
      (w.write r (Vs30.ofSelected w.view.siteClassCollection.selected)) ∧
    ∃ cs, (Wired._updateSiteClass m w).calls
        = Call.modelSetVs30 r w.view.siteClassCollection.selected :: cs ∧ QuietCalls cs := by
  obtain ⟨n, rfl⟩ : ∃ n, m = n + 1 := ⟨m - 1, by omega⟩
  have h := Wired.modelSet_endsIn n (by omega) w r hm hg
  have : Wired._updateSiteClass (n + 1) w
      = Run.after [Call.modelSetVs30 r w.view.siteClassCollection.selected]
          (Wired.modelSet n r w.view.siteClassCollection.selected w) := by
    simp [Wired._updateSiteClass, hm, Collection.getSelected]
  rw [this]
  exact ⟨h.1, _, rfl, h.2⟩

theorem foldl_foreign (step : Run → Listener → Run) (pre : List Listener)
    (hstep : ∀ acc l, l ∈ pre → step acc l = acc) (acc : Run) :
    pre.foldl step acc = acc := by
  induction pre generalizing acc with
  | nil => rfl
  | cons l rest ih =>
    simp only [List.foldl_cons]
    rw [hstep acc l (List.mem_cons_self _ _)]
    exact ih (fun a x hx => hstep a x (List.mem_cons_of_mem _ hx)) acc

theorem Wired.trigger_registered (n : Nat) (w : Wired) (e : Event)
    (he : e = Event.select ∨ e = Event.deselect)
    (hreg : Registered w.view.siteClassCollection.listeners) :
    Wired.trigger (n + 1) e w = Wired._updateSiteClass n w := by
  obtain ⟨pre, hpre, hl⟩ := hreg
  simp only [Wired.trigger, hl, List.foldl_append]
  rw [foldl_foreign _ pre]
  · rcases he with rfl | rfl <;> simp [Run.done_andThen]
  · intro acc l hmem
    have := hpre l hmem
    simp [this]

theorem Wired.trigger_endsIn (m : Nat) (hfuel : 7 ≤ m) (w : Wired) (r : Ref) (e : Event)
    (he : e = Event.select ∨ e = Event.deselect)
    (hreg : Registered w.view.siteClassCollection.listeners)
    (hm : w.view.model = some r)
    (hg : ∀ t, w.view.siteClassCollection.selected = some t →
      w.view.siteClassCollection.get t.id = some t) :
    (Wired.trigger m e w).EndsIn
      (w.write r (Vs30.ofSelected w.view.siteClassCollection.selected)) ∧
    ∃ cs, (Wired.trigger m e w).calls
        = Call.modelSetVs30 r w.view.siteClassCollection.selected :: cs ∧ QuietCalls cs := by
  obtain ⟨n, rfl⟩ : ∃ n, m = n + 1 := ⟨m - 1, by omega⟩
  rw [Wired.trigger_registered n w e he hreg]
  exact Wired.updateSiteClass_endsIn n (by omega) w r hm hg

theorem Wired.deselect_some (m : Nat) (hfuel : 8 ≤ m) (w : Wired) (r : Ref) (u : SiteClass)
    (hm : w.view.model = some r)
    (hsel : w.view.siteClassCollection.selected = some u)
    (hreg : Registered w.view.siteClassCollection.listeners) :
    (Wired.deselect m w).EndsIn ((w.withSelected none).write r Vs30.null) ∧
    ∃ cs, (Wired.deselect m w).calls = Call.modelSetVs30 r none :: cs ∧ QuietCalls cs := by
  obtain ⟨n, rfl⟩ : ∃ n, m = n + 1 := ⟨m - 1, by omega⟩
  have h1 : Wired.deselect (n + 1) w
      = Wired.trigger n Event.deselect (w.withSelected none) := by
    simp [Wired.deselect, hsel, Wired.withSelected]
  rw [h1]
  exact Wired.trigger_endsIn n (by omega) (w.withSelected none) r Event.deselect
    (Or.inr rfl) hreg hm
    (by intro t ht; simp [Wired.withSelected, Wired.withCollection] at ht)

theorem Wired.select_new (m : Nat) (hfuel : 9 ≤ m) (w : Wired) (r : Ref) (t : SiteClass)
    (hm : w.view.model = some r)
    (hne : w.view.siteClassCollection.selected ≠ some t)
    (hget : w.view.siteClassCollection.get t.id = some t)
    (hreg : Registered w.view.siteClassCollection.listeners) :
    (Wired.select m t w).EndsIn ((w.withSelected (some t)).write r (Vs30.siteClass t)) ∧
    Call.modelSetVs30 r (some t) ∈ (Wired.select m t w).calls := by
  obtain ⟨n, rfl⟩ : ∃ n, m = n + 1 := ⟨m - 1, by omega⟩
  cases hsel : w.view.siteClassCollection.selected with
  | none =>
    have h1 : Wired.select (n + 1) t w
        = Wired.trigger n Event.select (w.withSelected (some t)) := by
      simp [Wired.select, hsel, Run.done_andThen, hget, Wired.withSelected]
    rw [h1]
    have hup := Wired.trigger_endsIn n (by omega) (w.withSelected (some t)) r Event.select
      (Or.inl rfl) hreg hm
      (by
        intro x hx
        simp only [Wired.withSelected, Wired.withCollection] at hx
        cases hx
        exact hget)
    refine ⟨hup.1, ?_⟩
    obtain ⟨cs, hcs, _⟩ := hup.2
    rw [hcs]
    exact List.mem_cons_self _ _
  | some u =>
    have hd := (Wired.deselect_some n (by omega) w r u hm hsel hreg).1
    have hup := Wired.trigger_endsIn n (by omega)
      (((w.withSelected none).write r Vs30.null).withSelected (some t)) r Event.select
      (Or.inl rfl) hreg hm
      (by
        intro x hx
        simp only [Wired.withSelected, Wired.withCollection] at hx
        cases hx
        exact hget)
    have hstate : ((((w.withSelected none).write r Vs30.null).withSelected (some t)).write r
          (Vs30.ofSelected (some t)))
        = (w.withSelected (some t)).write r (Vs30.siteClass t) := by
      simp [Wired.write, Wired.withSelected, Wired.withCollection, Vs30.ofSelected]
    have hne2 : ¬ (some u = some t) := by rw [← hsel]; exact hne
    have h1 : Wired.select (n + 1) t w
        = (Wired.deselect n w).andThen (fun v =>
            if v.view.siteClassCollection.get t.id = some t then
              Wired.trigger n Event.select (v.withSelected (some t))
            else Run.throw v) := by
      simp [Wired.select, hsel, hne2, Wired.withSelected]
    have hf : (fun v : Wired =>
          if v.view.siteClassCollection.get t.id = some t then
            Wired.trigger n Event.select (v.withSelected (some t))
          else Run.throw v) ((w.withSelected none).write r Vs30.null)
        = Wired.trigger n Event.select
          (((w.withSelected none).write r Vs30.null).withSelected (some t)) := by
      have hget2 : ((w.withSelected none).write r Vs30.null).view.siteClassCollection.get t.id
          = some t := hget
      simp only [hget2, if_true]
    have hends : (Wired.trigger n Event.select
          (((w.withSelected none).write r Vs30.null).withSelected (some t))).EndsIn
        ((w.withSelected (some t)).write r (Vs30.siteClass t)) := by
      have := hup.1
      rw [show (((w.withSelected none).write r Vs30.null).withSelected
        (some t)).view.siteClassCollection.selected = some t from rfl] at this
      rw [hstate] at this
      exact this
    have hand := Run.EndsIn.andThen (f := fun v =>
        if v.view.siteClassCollection.get t.id = some t then
          Wired.trigger n Event.select (v.withSelected (some t))
        else Run.throw v) hd (by rw [hf]; exact hends)
    rw [h1]
    refine ⟨hand.1, ?_⟩
    rw [hand.2]
    apply List.mem_append_right
    rw [hf]
    obtain ⟨cs, hcs, _⟩ := hup.2
    rw [hcs]
    exact List.mem_cons_self _ _

theorem Wired.render_unfold (n : Nat) (w : Wired) (r : Ref) (s t : SiteClass)
    {changes : Changes} (hc : NoLocationOrEditionChange changes)
    (hm : w.view.model = some r) (hv : (w.view.analyses r).getVs30 = Vs30.siteClass s)
    (hget : w.view.siteClassCollection.get s.id = some t) :
    Wired.render (n + 3) changes w
      = Run.after [Call.selectById (some s.id)] (Wired.select n t w) := by
  rw [Wired.render_noChange (n + 2) hc]
  simp [Wired.renderSelection, hm, hv, Vs30.id, Wired.selectById, hget]

theorem Wired.render_selected (m : Nat) (hfuel : 4 ≤ m) (w : Wired) (r : Ref) (s t : SiteClass)
    {changes : Changes} (hc : NoLocationOrEditionChange changes)
    (hm : w.view.model = some r) (hv : (w.view.analyses r).getVs30 = Vs30.siteClass s)
    (hget : w.view.siteClassCollection.get s.id = some t)
    (hsel : w.view.siteClassCollection.selected = some t) :
    (Wired.render m changes w).EndsIn w ∧ QuietCalls (Wired.render m changes w).calls := by
  obtain ⟨n, rfl⟩ : ∃ n, m = n + 1 + 3 := ⟨m - 4, by omega⟩
  rw [Wired.render_unfold (n + 1) w r s t hc hm hv hget, Wired.select_same n w t hsel]
  refine ⟨⟨rfl, rfl, rfl⟩, ?_⟩
  intro c hcall
  simp [Run.after, Run.done] at hcall
  exact Or.inr ⟨_, hcall⟩

theorem Wired.render_new (m : Nat) (hfuel : 12 ≤ m) (w : Wired) (r : Ref) (s t : SiteClass)
    {changes : Changes} (hc : NoLocationOrEditionChange changes)
    (hm : w.view.model = some r) (hv : (w.view.analyses r).getVs30 = Vs30.siteClass s)
    (hget : w.view.siteClassCollection.get s.id = some t)
    (hreg : Registered w.view.siteClassCollection.listeners)
    (hne : w.view.siteClassCollection.selected ≠ some t) :
    (Wired.render m changes w).EndsIn
      ((w.withSelected (some t)).write r (Vs30.siteClass t)) ∧
    Call.modelSetVs30 r (some t) ∈ (Wired.render m changes w).calls := by
  obtain ⟨n, rfl⟩ : ∃ n, m = n + 3 := ⟨m - 3, by omega⟩
  have hgt : w.view.siteClassCollection.get t.id = some t := by
    rw [Collection.get_id hget]; exact hget
  have h := Wired.select_new n (by omega) w r t hm hne hgt hreg
  rw [Wired.render_unfold n w r s t hc hm hv hget]
  refine ⟨h.1, ?_⟩
  show Call.modelSetVs30 r (some t) ∈ [Call.selectById (some s.id)] ++ (Wired.select n t w).calls
  exact List.mem_append_right _ h.2

theorem initialize_registered (params : Params)
    (hforeign : ∀ c, params.vs30 = some c →
      ∀ l ∈ c.listeners, l.callback ≠ Callback.updateSiteClass) :
    Registered ( _initialize params).view.siteClassCollection.listeners := by
  cases hc : params.vs30 with
  | none =>
    refine ⟨[], ?_, ?_⟩
    · intro l hl; cases hl
    · simp [ _initialize, hc, Collection.onEvent, Collection.empty]
  | some c =>
    refine ⟨c.listeners, hforeign c hc, ?_⟩
    simp [ _initialize, hc, Collection.onEvent]

/-- C4: let `_initialize` have registered `_updateSiteClass` for `select` and
`deselect` on the site class collection (lines 65-67), let a model be bound
whose `vs30` is a site class with an id that occurs in the collection, the ids
in the collection being distinct, and let `t` be the collection's item of that
id.  Run with the listeners dispatched
and enough fuel, a `render` without a change of location or edition ends
without a throw with `t` selected (the collection is as the body of `render`
alone leaves it) and the model's `vs30` still of that id; when
`t` was not selected before, the listener has written `t` itself back to the
model inside `render`, and when it was, nothing changes.  A following
`_updateSiteClass` calls `model.set` with `t` and leaves the model's `vs30`
being `t`, every other model and the collection as they are.  A second
`render`, before or after that write-back, changes nothing and writes no
model. -/
theorem render_updateSiteClass_no_drift (params : Params) (v : View) (k : Ref → Nat)
    (fuel : Nat) (r : Ref) (s : SiteClass) (c1 c2 : Changes)
    (hforeign : ∀ c, params.vs30 = some c →
      ∀ l ∈ c.listeners, l.callback ≠ Callback.updateSiteClass)
    (hl : v.siteClassCollection.listeners
      = ( _initialize params).view.siteClassCollection.listeners)
    (hm : v.model = some r) (hv : (v.analyses r).getVs30 = Vs30.siteClass s)
    (hp : ∃ t ∈ v.siteClassCollection.data, t.id = s.id)
    (hd : DistinctIds v.siteClassCollection.data)
    (h1 : NoLocationOrEditionChange c1) (h2 : NoLocationOrEditionChange c2)
    (hfuel : 12 ≤ fuel) :
    ∃ t, v.siteClassCollection.get s.id = some t ∧ t ∈ v.siteClassCollection.data ∧
      t.id = s.id ∧ (∀ x ∈ v.siteClassCollection.data, x.id = s.id → x = t) ∧
    ∃ o1 o2 o3 o4 : Run,
      o1 = Wired.render fuel c1 { view := v, renderOnChange := k } ∧
      o2 = Wired._updateSiteClass fuel o1.wired ∧
      o3 = Wired.render fuel c2 o2.wired ∧
      o4 = Wired.render fuel c2 o1.wired ∧
      o1.threw = false ∧ o1.outOfFuel = false ∧
      o1.wired.view.siteClassCollection.selected = some t ∧
      o1.wired.view.siteClassCollection = (render c1 v).view.siteClassCollection ∧
      (o1.wired.view.analyses r).getVs30.id = some s.id ∧
      (v.siteClassCollection.selected ≠ some t →
        (o1.wired.view.analyses r).vs30 = some (Vs30.siteClass t) ∧
        Call.modelSetVs30 r (some t) ∈ o1.calls) ∧
      (v.siteClassCollection.selected = some t →
        o1.wired = { view := v, renderOnChange := k }) ∧
      o2.threw = false ∧ o2.outOfFuel = false ∧
      (o2.wired.view.analyses r).vs30 = some (Vs30.siteClass t) ∧
      Call.modelSetVs30 r (some t) ∈ o2.calls ∧
      o2.wired.view.siteClassCollection = o1.wired.view.siteClassCollection ∧
      (∀ q, q ≠ r → o2.wired.view.analyses q = v.analyses q) ∧
      o3.wired = o2.wired ∧ o3.threw = false ∧ o3.outOfFuel = false ∧ QuietCalls o3.calls ∧
      o4.wired = o1.wired ∧ o4.threw = false ∧ o4.outOfFuel = false ∧
      QuietCalls o4.calls := by
  obtain ⟨t0, ht0mem, ht0id⟩ := hp
  obtain ⟨t, hget⟩ := Collection.get_isSome_of_mem ht0mem ht0id
  have htid : t.id = s.id := Collection.get_id hget
  have htmem : t ∈ v.siteClassCollection.data := Collection.get_mem hget
  have hgt : v.siteClassCollection.get t.id = some t := by rw [htid]; exact hget
  have hreg : Registered v.siteClassCollection.listeners := by
    rw [hl]; exact initialize_registered params hforeign
  have hplain : (render c1 v).view.siteClassCollection
      = { v.siteClassCollection with selected := some t } := by
    rw [render_eq_renderSelection h1]
    simp [renderSelection, hm, hv, Vs30.id, Collection.selectById, hget]
  have huniq : ∀ x ∈ v.siteClassCollection.data, x.id = s.id → x = t := by
    intro x hx hxid
    exact List.inj_on_of_nodup_map hd hx htmem (hxid.trans htid.symm)
  refine ⟨t, hget, htmem, htid, huniq, _, _, _, _, rfl, rfl, rfl, rfl, ?_⟩
  by_cases hsel : v.siteClassCollection.selected = some t
  · -- the item is selected already: render changes nothing
    have hr1 := Wired.render_selected fuel (by omega) { view := v, renderOnChange := k }
      r s t h1 hm hv hget hsel
    have hw1 : (Wired.render fuel c1 { view := v, renderOnChange := k }).wired
        = { view := v, renderOnChange := k } := hr1.1.1
    rw [hw1]
    have hu := Wired.updateSiteClass_endsIn fuel (by omega)
      { view := v, renderOnChange := k } r hm
      (by intro x hx; rw [hsel] at hx; cases hx; exact hgt)
    have hsy := Synced.write { view := v, renderOnChange := k } r hm
      (by intro x hx; rw [hsel] at hx; cases hx; exact hgt)
    have hw2 : (Wired._updateSiteClass fuel { view := v, renderOnChange := k }).wired
        = _ := hu.1.1
    rw [hw2]
    have hr3 := Wired.render_synced fuel (by omega) c2 h2 _ r hsy
    have hr4 := Wired.render_selected fuel (by omega) { view := v, renderOnChange := k }
      r s t h2 hm hv hget hsel
    obtain ⟨cs, hcs, _⟩ := hu.2
    refine ⟨hr1.1.2.1, hr1.1.2.2, hsel, ?_, ?_, ?_, fun _ => rfl, hu.1.2.1, hu.1.2.2,
      ?_, ?_, rfl, ?_, hr3.1.1, hr3.1.2.1, hr3.1.2.2, hr3.2, hr4.1.1, hr4.1.2.1,
      hr4.1.2.2, hr4.2⟩
    · rw [hplain]
      rcases hcol : v.siteClassCollection with ⟨d, sel, ls, rs⟩
      rw [hcol] at hsel
      simp only at hsel
      simp [hsel]
    · simp [hv, Vs30.id]
    · intro hne; exact absurd hsel hne
    · simp [Wired.write, hsel, Vs30.ofSelected]
    · rw [hcs, hsel]; exact List.mem_cons_self _ _
    · intro q hq
      simp [Wired.write, Function.update, hq]
  · -- another item or none is selected: render selects, the listener writes back
    have hr1 := Wired.render_new fuel hfuel { view := v, renderOnChange := k }
      r s t h1 hm hv hget hreg hsel
    have hw1 : (Wired.render fuel c1 { view := v, renderOnChange := k }).wired = _ := hr1.1.1
    rw [hw1]
    have hm1 : ((Wired.withSelected { view := v, renderOnChange := k } (some t)).write r
        (Vs30.siteClass t)).view.model = some r := hm
    have hg1 : ∀ x, ((Wired.withSelected { view := v, renderOnChange := k } (some t)).write r
        (Vs30.siteClass t)).view.siteClassCollection.selected = some x →
        ((Wired.withSelected { view := v, renderOnChange := k } (some t)).write r
        (Vs30.siteClass t)).view.siteClassCollection.get x.id = some x := by
      intro x hx
      simp only [Wired.write, Wired.withSelected, Wired.withCollection] at hx
      cases hx
      exact hgt
    have hsy1 : Synced ((Wired.withSelected { view := v, renderOnChange := k } (some t)).write r
        (Vs30.siteClass t)) r := by
      refine ⟨hm, Or.inr ⟨t, rfl, ?_, hgt⟩⟩
      simp [Wired.write, Analysis.getVs30]
    have hu := Wired.updateSiteClass_endsIn fuel (by omega) _ r hm1 hg1
    have hsy2 := Synced.write _ r hm1 hg1
    have hw2 : (Wired._updateSiteClass fuel
        ((Wired.withSelected { view := v, renderOnChange := k } (some t)).write r
        (Vs30.siteClass t))).wired = _ := hu.1.1
    rw [hw2]
    have hr3 := Wired.render_synced fuel (by omega) c2 h2 _ r hsy2
    have hr4 := Wired.render_synced fuel (by omega) c2 h2 _ r hsy1
    obtain ⟨cs, hcs, _⟩ := hu.2
    refine ⟨hr1.1.2.1, hr1.1.2.2, rfl, ?_, ?_, ?_, ?_, hu.1.2.1, hu.1.2.2,
      ?_, ?_, rfl, ?_, hr3.1.1, hr3.1.2.1, hr3.1.2.2, hr3.2, hr4.1.1, hr4.1.2.1,
      hr4.1.2.2, hr4.2⟩
    · rw [hplain]
      rfl
    · simp [Wired.write, Analysis.getVs30, Vs30.id, htid]
    · intro _
      refine ⟨?_, hr1.2⟩
      simp [Wired.write]
    · intro h; exact absurd h hsel
    · simp [Wired.write, Wired.withSelected, Wired.withCollection, Vs30.ofSelected]
    · rw [hcs]
      exact List.mem_cons_self _ _
    · intro q hq
      simp [Wired.write, Wired.withSelected, Wired.withCollection, Function.update, hq]

/-- The run of `render()` on the view made from the sample parameters with
analysis 0 bound and `render` registered once on it: site class B is selected
and the model holds a stale copy of site class C.  `selectById(3)` deselects B,
upon which the listener writes `null` to the model and the nested `render`
deselects; then C is selected, the listener writes C to the model and the
nested `render` finds C selected. -/
theorem wired_render_trace :
    (Wired.render 12 Changes.undefined
      { view := ( _initialize (sampleParams (some 0))).view, renderOnChange := fun _ => 1 }).calls
      = [Call.selectById (some 3), Call.modelSetVs30 0 none, Call.deselect,
         Call.modelSetVs30 0 (some siteC), Call.selectById (some 3)] ∧
    (Wired.render 11 Changes.undefined
      { view := ( _initialize (sampleParams (some 0))).view,
        renderOnChange := fun _ => 1 }).outOfFuel = false ∧
    (Wired.render 10 Changes.undefined
      { view := ( _initialize (sampleParams (some 0))).view,
        renderOnChange := fun _ => 1 }).outOfFuel = true := by
  refine ⟨?_, ?_, ?_⟩ <;> decide

/-- C4 on the view made from the sample parameters with analysis 0 bound, whose
`vs30` is a stale copy of site class C while site class B is selected: `render`
selects the collection's site class C and the listener stores it in the model. -/
theorem render_updateSiteClass_no_drift_witness :
    (Wired.render 12 Changes.undefined
      { view := ( _initialize (sampleParams (some 0))).view,
        renderOnChange := fun _ => 1 }).wired.view.siteClassCollection.selected
      = some siteC ∧
    ((Wired.render 12 Changes.undefined
      { view := ( _initialize (sampleParams (some 0))).view,
        renderOnChange := fun _ => 1 }).wired.view.analyses 0).vs30
      = some (Vs30.siteClass siteC) ∧
    ∃ t, ( _initialize (sampleParams (some 0))).view.siteClassCollection.get siteC2.id
        = some t ∧
      t ∈ ( _initialize (sampleParams (some 0))).view.siteClassCollection.data ∧
      t.id = siteC2.id :=
  ⟨by decide, by decide,
   (render_updateSiteClass_no_drift (sampleParams (some 0))
      ( _initialize (sampleParams (some 0))).view (fun _ => 1) 12 0 siteC2
      Changes.undefined (Changes.object [Attr.vs30])
      (fun c hc => by cases hc; decide) rfl rfl rfl ⟨siteC, by decide, rfl⟩
      (by decide) (by decide) (by decide) (by decide)).elim
    (fun t h => ⟨t, h.1, h.2.1, h.2.2.1⟩)⟩

end SiteClassView
